import Mathlib

/-!
# Verification of the dispatch_streamlit ingestion core

A shallow embedding, in Lean 4, of the ingestion/normalization pipeline of the
`dispatch_streamlit` repository:

* `src/utils/date_parser.py` — `parse_date`, `parse_datetime`,
* `src/processors/assy.py`, `fabcut.py`, `lp.py` — the three format adapters
  present in the source tree (`_extract_metadata`, `_get_prod_date`,
  `_get_report_creation_datetime`, `_convert_to_float`, `_map_row_to_data`),
* `src/processors/base.py` — `row_exists`, `process_file`, `_insert_data`,
* `src/schemas/models.py` — `FileType`, the pydantic record models and their
  numeric validator, `FileProcessingSummary`.

Modelling conventions:

* A CSV file is a `List (List String)` (list of rows of cells), exactly what
  `csv.reader` yields.  Python `row[i]` (which can raise `IndexError`) is
  `row[i]?`.
* Python `None`-or-`str` values are `Option String`; fallible code returns
  `Except String _` (an `Except.error` models a raised exception caught by the
  caller).
* Python `float` values produced by `float(...)` are modelled exactly by the
  `PyFloat` type: a rational for finite literals plus `inf`/`neginf`/`nan`.
  The decimal literal's value is kept exact (as a rational) because the code
  only ever negates and compares these values against zero; IEEE-754 rounding
  is irrelevant to every property proved here.  PEP 515 underscore grouping
  and overflow-to-infinity of huge literals are not modelled.
* `datetime.strptime` / `strftime` are modelled by a small interpreter over
  the concrete directive strings appearing in the source (`%d %m %b %y %Y %H
  %I %M %S %p %f` and literals), with CPython's `_strptime` leniency (1-2
  digit day/month/hour, 2-digit-year window 69/2000, case-insensitive month
  abbreviations, whole-string match) and `datetime(...)` range validation.
* The record store is a `List DispatchData`; `row_exists` reproduces the SQL
  `col = ?` comparison semantics of `FileProcessor.row_exists`, in which a
  `NULL` operand makes the comparison untrue (`NULL = NULL` is not true in
  SQL, and Python `None` binds as `NULL`).
* The ingestion-time wall clock (`upload_date`) is outside the functional
  model; it is never read by any branch of the pipeline.
-/

namespace Dispatch

/-! ## Python string primitives -/

/-- The whitespace characters stripped by `str.strip()` / `float()` (the ASCII
ones; exotic Unicode whitespace does not occur in the modelled inputs). -/
def pyIsSpace (c : Char) : Bool :=
  c = ' ' || c = '\t' || c = '\n' || c = '\r' || c = '\x0b' || c = '\x0c'

/-- Python `s.strip()`. -/
def pyStrip (s : String) : String :=
  String.mk (((s.toList.dropWhile pyIsSpace).reverse.dropWhile pyIsSpace).reverse)

/-- Python `row[i]` for a list of cells, as an `Option` (`none` = `IndexError`). -/
def pyCell (row : List String) (i : Nat) : Option String := row[i]?

/-- Python slice `row[a:b]`. -/
def pySlice (row : List String) (a b : Nat) : List String :=
  (row.drop a).take (b - a)

/-! ## Python floats: `float(...)` -/

/-- An exact decimal value `num / 10^shift`, the value of a finite float
literal.  (A plain pair of integers rather than `ℚ` so that every arithmetic
step is structurally recursive and kernel-computable.) -/
structure DecimalVal where
  num : Int
  shift : Nat
deriving DecidableEq, Repr

def pow10 : Nat → Int
  | 0 => 1
  | n + 1 => 10 * pow10 n

/-- Semantic equality of two decimal values: `a/10^s = b/10^t ↔ a·10^t = b·10^s`. -/
def DecimalVal.eqv (a b : DecimalVal) : Bool :=
  a.num * pow10 b.shift == b.num * pow10 a.shift

/-- The rational value denoted. -/
def DecimalVal.toRat (a : DecimalVal) : ℚ := (a.num : ℚ) / (10 : ℚ) ^ a.shift

/-- The result of a successful Python `float(...)` call.  Finite values are
kept exact (see the header comment). -/
inductive PyFloat where
  | finite (v : DecimalVal)
  | inf
  | neginf
  | nan
deriving DecidableEq, Repr

/-- Python unary minus on a float (`-float(...)`). -/
def PyFloat.neg : PyFloat → PyFloat
  | .finite v => .finite ⟨-v.num, v.shift⟩
  | .inf => .neginf
  | .neginf => .inf
  | .nan => .nan

/-- Python `v < 0` on a float (`nan < 0` is `False`). -/
def PyFloat.ltZero : PyFloat → Bool
  | .finite v => decide (v.num < 0)
  | .inf => false
  | .neginf => true
  | .nan => false

def digitVal (c : Char) : Option Nat :=
  if c.isDigit then some (c.toNat - 48) else none

/-- Greedily read a run of decimal digits, returning them and the rest. -/
def takeDigits : List Char → (List Char × List Char)
  | [] => ([], [])
  | c :: cs =>
    if c.isDigit then
      let (ds, rest) := takeDigits cs
      (c :: ds, rest)
    else ([], c :: cs)

/-- Numeric value of a digit string. -/
def digitsToNat (ds : List Char) : Nat :=
  ds.foldl (fun acc c => acc * 10 + (c.toNat - 48)) 0

/-- Value of the significand-and-exponent part of a float literal:
`ds.fs × 10^e`, as an exact decimal. -/
def floatLiteralVal (intDs fracDs : List Char) (e : Int) : DecimalVal :=
  let mantissa : Int := digitsToNat (intDs ++ fracDs)
  if 0 ≤ e then ⟨mantissa * pow10 e.toNat, fracDs.length⟩
  else ⟨mantissa, fracDs.length + (-e).toNat⟩

/-- The body of a Python float literal after the optional sign:
`digits [. digits] [(e|E) [sign] digits]`, or `inf`/`infinity`/`nan`
(case-insensitive).  Returns the value, `none` on a malformed literal. -/
def parseFloatBody (cs : List Char) : Option PyFloat :=
  let lower := cs.map Char.toLower
  if lower = "inf".toList || lower = "infinity".toList then some .inf
  else if lower = "nan".toList then some .nan
  else
    let (intDs, rest1) := takeDigits cs
    let (fracDs, rest2) :=
      match rest1 with
      | '.' :: cs' => takeDigits cs'
      | _ => ([], rest1)
    if intDs = [] ∧ fracDs = [] then none
    else
      match rest2 with
      | [] => some (.finite (floatLiteralVal intDs fracDs 0))
      | e :: cs' =>
        if e = 'e' ∨ e = 'E' then
          let (expSign, cs'') :=
            match cs' with
            | '-' :: t => (true, t)
            | '+' :: t => (false, t)
            | t => (false, t)
          let (expDs, rest3) := takeDigits cs''
          if expDs = [] ∨ rest3 ≠ [] then none
          else
            let ev : Int := if expSign then -(digitsToNat expDs : Int) else (digitsToNat expDs : Int)
            some (.finite (floatLiteralVal intDs fracDs ev))
        else none

/-- Python built-in `float(s)` on a `str` argument: strip whitespace, optional
sign, then the literal body.  `none` models the raised `ValueError`. -/
def pyFloat (s : String) : Option PyFloat :=
  let cs := (s.toList.dropWhile pyIsSpace).reverse.dropWhile pyIsSpace |>.reverse
  match cs with
  | '-' :: rest => (parseFloatBody rest).map PyFloat.neg
  | '+' :: rest => parseFloatBody rest
  | rest => parseFloatBody rest

/-! ## `datetime.strptime` / `strftime`

A direct model of CPython's `_strptime` for the directives used by
`src/utils/date_parser.py`, followed by `datetime(...)` range validation and
`strftime` re-formatting. -/

/-- Fields collected while interpreting a format string (missing fields take
CPython's defaults: year 1900, month 1, day 1, hour/minute/second 0). -/
structure TimeParts where
  year : Option Nat := none
  month : Option Nat := none
  day : Option Nat := none
  hour24 : Option Nat := none
  hour12 : Option Nat := none
  pm : Option Bool := none
  minute : Option Nat := none
  second : Option Nat := none
deriving Repr, DecidableEq

/-- The 1-or-2-digit numeric directives of `_strptime` (`%d`, `%m`, `%H`, `%I`,
`%M`, `%S`): a two-digit read is taken when its value lies in `[lo2, hi2]`,
otherwise a single digit in `[lo1, hi1]` is taken (this reproduces the
alternation order of the `_strptime` regexes, e.g. `3[01]|[12]\d|0[1-9]|[1-9]`
for `%d`). -/
def parseNum12 (lo2 hi2 lo1 hi1 : Nat) : List Char → Option (Nat × List Char)
  | c1 :: c2 :: rest =>
    match digitVal c1, digitVal c2 with
    | some d1, some d2 =>
      let v := 10 * d1 + d2
      if lo2 ≤ v ∧ v ≤ hi2 then some (v, rest)
      else if lo1 ≤ d1 ∧ d1 ≤ hi1 then some (d1, c2 :: rest)
      else none
    | some d1, none =>
      if lo1 ≤ d1 ∧ d1 ≤ hi1 then some (d1, c2 :: rest) else none
    | none, _ => none
  | [c1] =>
    match digitVal c1 with
    | some d1 => if lo1 ≤ d1 ∧ d1 ≤ hi1 then some (d1, []) else none
    | none => none
  | [] => none

/-- Exactly `n` digits (`%y` is `\d\d`, `%Y` is `\d\d\d\d`). -/
def parseNumExact (n : Nat) (cs : List Char) : Option (Nat × List Char) :=
  let ds := (cs.take n).filterMap digitVal
  if ds.length = n then some (digitsToNat (cs.take n), cs.drop n) else none

/-- Case-insensitive month abbreviations of the C locale, in month order. -/
def monthAbbrevs : List (List Char) :=
  ["jan".toList, "feb".toList, "mar".toList, "apr".toList, "may".toList,
   "jun".toList, "jul".toList, "aug".toList, "sep".toList, "oct".toList,
   "nov".toList, "dec".toList]

/-- The `%b`: a three-letter month abbreviation, case-insensitively. -/
def parseMonthAbbrev (cs : List Char) : Option (Nat × List Char) :=
  let pre := (cs.take 3).map Char.toLower
  match monthAbbrevs.indexOf? pre with
  | some i => if cs.length < 3 then none else some (i + 1, cs.drop 3)
  | none => none

/-- The `%p`: `AM`/`PM`, case-insensitively; returns `true` for PM. -/
def parseAmPm (cs : List Char) : Option (Bool × List Char) :=
  match (cs.take 2).map Char.toLower with
  | ['a', 'm'] => some (false, cs.drop 2)
  | ['p', 'm'] => some (true, cs.drop 2)
  | _ => none

/-- CPython's two-digit-year pivot: `0..68 → 2000..2068`, `69..99 → 1969..1999`. -/
def century (y2 : Nat) : Nat := if y2 < 69 then 2000 + y2 else 1900 + y2

/-- Interpret a `strptime` format over an input.  A literal space in the
format matches one or more whitespace characters (`_strptime` replaces
whitespace by `\s+`); any other literal matches itself.  The whole input must
be consumed ("unconverted data remains" otherwise). -/
def runFormat : List Char → List Char → TimeParts → Option TimeParts
  | [], input, parts => if input = [] then some parts else none
  | '%' :: dir :: fmt, input, parts =>
    match dir with
    | 'd' => (parseNum12 1 31 1 9 input).bind fun (v, rest) =>
        runFormat fmt rest { parts with day := some v }
    | 'm' => (parseNum12 1 12 1 9 input).bind fun (v, rest) =>
        runFormat fmt rest { parts with month := some v }
    | 'b' => (parseMonthAbbrev input).bind fun (v, rest) =>
        runFormat fmt rest { parts with month := some v }
    | 'y' => (parseNumExact 2 input).bind fun (v, rest) =>
        runFormat fmt rest { parts with year := some (century v) }
    | 'Y' => (parseNumExact 4 input).bind fun (v, rest) =>
        runFormat fmt rest { parts with year := some v }
    | 'H' => (parseNum12 0 23 0 9 input).bind fun (v, rest) =>
        runFormat fmt rest { parts with hour24 := some v }
    | 'I' => (parseNum12 1 12 1 9 input).bind fun (v, rest) =>
        runFormat fmt rest { parts with hour12 := some v }
    | 'M' => (parseNum12 0 59 0 9 input).bind fun (v, rest) =>
        runFormat fmt rest { parts with minute := some v }
    | 'S' => (parseNum12 0 61 0 9 input).bind fun (v, rest) =>
        runFormat fmt rest { parts with second := some v }
    | 'p' => (parseAmPm input).bind fun (v, rest) =>
        runFormat fmt rest { parts with pm := some v }
    | 'f' =>
      let (ds, rest) := takeDigits input
      if ds.length < 1 ∨ 6 < ds.length then none
      else runFormat fmt rest parts
    | _ => none
  | ' ' :: fmt, input, parts =>
    let rest := input.dropWhile pyIsSpace
    if rest.length = input.length then none else runFormat fmt rest parts
  | c :: fmt, input, parts =>
    match input with
    | i :: rest => if i = c then runFormat fmt rest parts else none
    | [] => none

/-- Gregorian leap year. -/
def isLeap (y : Nat) : Bool := y % 4 = 0 ∧ (y % 100 ≠ 0 ∨ y % 400 = 0)

def daysInMonth (y m : Nat) : Nat :=
  if m = 2 then (if isLeap y then 29 else 28)
  else if m = 4 ∨ m = 6 ∨ m = 9 ∨ m = 11 then 30
  else 31

/-- The range checks of the `datetime(...)` constructor for the fields a
parse can produce (`MINYEAR ≤ year ≤ MAXYEAR`, day fits the month,
`second ≤ 59` — `%S` itself admits 60/61, which `datetime` then rejects). -/
def dateOk (y m d : Nat) : Bool :=
  1 ≤ y ∧ y ≤ 9999 ∧ 1 ≤ m ∧ m ≤ 12 ∧ 1 ≤ d ∧ d ≤ daysInMonth y m

/-- A fully resolved parse result: `(year, month, day, hour, minute, second)`. -/
def TimeParts.finalize (p : TimeParts) : Option (Nat × Nat × Nat × Nat × Nat × Nat) :=
  let y := p.year.getD 1900
  let m := p.month.getD 1
  let d := p.day.getD 1
  let hour :=
    match p.hour12, p.pm with
    | some i, some true => if i = 12 then 12 else i + 12
    | some i, some false => if i = 12 then 0 else i
    | some i, none => i
    | none, _ => p.hour24.getD 0
  let mi := p.minute.getD 0
  let s := p.second.getD 0
  if dateOk y m d ∧ s ≤ 59 then some (y, m, d, hour, mi, s) else none

/-- The `datetime.strptime(input, fmt)`, as the resolved six fields (`none` models
the raised `ValueError`). -/
def strptime (input fmt : String) : Option (Nat × Nat × Nat × Nat × Nat × Nat) :=
  (runFormat fmt.toList input.toList {}).bind TimeParts.finalize

def pad2 (n : Nat) : String := if n < 10 then "0" ++ toString n else toString n

def pad4 (n : Nat) : String :=
  if n < 10 then "000" ++ toString n
  else if n < 100 then "00" ++ toString n
  else if n < 1000 then "0" ++ toString n
  else toString n

/-- The `dt.strftime('%Y-%m-%d')`. -/
def strftimeDate (y m d : Nat) : String := pad4 y ++ "-" ++ pad2 m ++ "-" ++ pad2 d

/-- The `dt.strftime('%Y-%m-%d %H:%M:%S')`. -/
def strftimeDateTime (y m d h mi s : Nat) : String :=
  strftimeDate y m d ++ " " ++ pad2 h ++ ":" ++ pad2 mi ++ ":" ++ pad2 s

/-- One `strptime`-then-`strftime('%Y-%m-%d')` attempt of `parse_date`'s loop
body. -/
def tryDateFormat (s fmt : String) : Option String :=
  (strptime s fmt).map fun (y, m, d, _, _, _) => strftimeDate y m d

/-! ## `src/utils/date_parser.py` -/

/-- The `date_formats` list of `parse_date`, verbatim (including the
duplicated `'%d-%b-%y'` entry). -/
def date_formats : List String :=
  ["%d-%b-%y", "%d-%b-%Y", "%m/%d/%Y", "%d-%b-%y", "%d/%b/%y"]

/-- The `for date_format in date_formats: try ... except ValueError: continue`
loop of `parse_date`. -/
def tryDateFormats (s : String) : List String → Option String
  | [] => none
  | fmt :: fmts =>
    match tryDateFormat s fmt with
    | some r => some r
    | none => tryDateFormats s fmts

/-- The `parse_date` (`src/utils/date_parser.py`).  The argument is `none` for a
non-`str` (or `None`) Python value, rejected by the `isinstance` guard. -/
def parse_date (dateStr : Option String) : Option String :=
  match dateStr with
  | none => none
  | some s0 =>
    if s0 = "" then none
    else
      let s := pyStrip s0
      if s = "" then none
      else tryDateFormats s date_formats

/-- Recognize the regex `Printed on (\d{1,2}/\d{1,2}/\d{4}) / *(\d{1,2}:\d{2}:\d{2})(AM|PM)`
anchored at the current position, returning the three captured groups.  The
only regex backtracking possible is the two-or-one digit choice before a
separator, handled explicitly. -/
def matchPrintedAt (cs : List Char) : Option (String × String × String) :=
  -- literal "Printed on "
  let lit := "Printed on ".toList
  if cs.take lit.length ≠ lit then none
  else
    let cs := cs.drop lit.length
    -- \d{1,2} followed by the separator, preferring two digits
    let num12 : Char → List Char → Option (List Char × List Char) := fun sep l =>
      match l with
      | c1 :: c2 :: c3 :: rest =>
        if c1.isDigit ∧ c2.isDigit ∧ c3 = sep then some ([c1, c2], rest)
        else if c1.isDigit ∧ c2 = sep then some ([c1], c3 :: rest)
        else none
      | [c1, c2] => if c1.isDigit ∧ c2 = sep then some ([c1], []) else none
      | _ => none
    (num12 '/' cs).bind fun (mo, cs) =>
    (num12 '/' cs).bind fun (dy, cs) =>
    -- \d{4}
    (if (cs.take 4).all Char.isDigit ∧ (cs.take 4).length = 4 then
        some (cs.take 4, cs.drop 4) else none).bind fun (yr, cs) =>
    -- literal " / " then zero or more spaces
    (match cs with
     | ' ' :: '/' :: ' ' :: rest => some (rest.dropWhile (· = ' '))
     | _ => none).bind fun cs =>
    -- \d{1,2} ':' \d{2} ':' \d{2}
    (num12 ':' cs).bind fun (hh, cs) =>
    (if (cs.take 2).all Char.isDigit ∧ (cs.take 2).length = 2 then
        some (cs.take 2, cs.drop 2) else none).bind fun (mi, cs) =>
    (match cs with | ':' :: rest => some rest | _ => none).bind fun cs =>
    (if (cs.take 2).all Char.isDigit ∧ (cs.take 2).length = 2 then
        some (cs.take 2, cs.drop 2) else none).bind fun (ss, cs) =>
    -- (AM|PM), case-sensitive as in the source regex
    (match cs with
     | 'A' :: 'M' :: _ => some "AM"
     | 'P' :: 'M' :: _ => some "PM"
     | _ => none).map fun ampm =>
      (String.mk (mo ++ '/' :: dy ++ '/' :: yr),
       String.mk (hh ++ ':' :: mi ++ ':' :: ss),
       ampm)

/-- The `re.search` of the `Printed on` pattern: the leftmost position where the
pattern matches. -/
def searchPrinted : List Char → Option (String × String × String)
  | [] => none
  | c :: rest =>
    match matchPrintedAt (c :: rest) with
    | some r => some r
    | none => searchPrinted rest

/-- The `parse_datetime` (`src/utils/date_parser.py`). -/
def parse_datetime (datetimeStr : Option String) : Option String :=
  match datetimeStr with
  | none => none
  | some s0 =>
    if s0 = "" then none
    else
      let s := pyStrip s0
      if s = "" then none
      else
        let fallback :=
          match strptime s "%Y-%m-%d %H:%M:%S" with
          | some (y, m, d, h, mi, sec) => some (strftimeDateTime y m d h mi sec)
          | none =>
            match strptime s "%Y-%m-%dT%H:%M:%S.%f" with
            | some (y, m, d, h, mi, sec) => some (strftimeDateTime y m d h mi sec)
            | none => none
        match searchPrinted s.toList with
        | some (dateStr, timeStr, ampm) =>
          match strptime (dateStr ++ " " ++ timeStr ++ " " ++ ampm) "%m/%d/%Y %I:%M:%S %p" with
          | some (y, m, d, h, mi, sec) => some (strftimeDateTime y m d h mi sec)
          | none => fallback
        | none => fallback

/-! ## `src/schemas/models.py` -/

/-- The `FileType(str, Enum)`. -/
inductive FileType where
  | ASSY | FABCUT | LP | SEWDC | SEWFB
deriving DecidableEq, Repr

/-- The enum member's string value. -/
def FileType.value : FileType → String
  | .ASSY => "Assy"
  | .FABCUT => "Fabcut"
  | .LP => "LP"
  | .SEWDC => "SEW-DC"
  | .SEWFB => "SEW-FB"

/-- The `FileType.db_value` (`src/schemas/models.py`). -/
def FileType.db_value (ft : FileType) : String :=
  if ft = FileType.SEWDC then "DC-Sew" else ft.value

/-- The set of strings pydantic coerces into a `FileType` member: exactly the
member values. -/
def fileTypeValues : List String :=
  [FileType.ASSY.value, FileType.FABCUT.value, FileType.LP.value,
   FileType.SEWDC.value, FileType.SEWFB.value]

/-- A validated `DispatchDataCreate` record.  `prod_date`, the `report_*`
dates and `report_creation_datetime` are kept in their canonical string
renderings (`YYYY-MM-DD` / `YYYY-MM-DD HH:MM:SS`), which is both what the
parser emits and what SQLite stores.  `upload_date` (wall clock, never read
by any pipeline branch) is outside the functional model. -/
structure DispatchData where
  file_type : String
  work_cell : String
  job_number : String
  part_number : String
  comments : Option String
  job_qty : PyFloat
  bal_qty : PyFloat
  code : String
  prod_date : String
  est_compl_date : Option String
  and_on : Option String
  m_pc : Option PyFloat
  prod_hr : Option PyFloat
  report_start_date : String
  report_end_date : String
  report_department : String
  report_creation_datetime : String
  file_name : String
  processing_status : String
deriving DecidableEq, Repr

/-- The `validate_numeric_fields` check on an optional field:
`v is not None and v < 0`. -/
def optLtZero : Option PyFloat → Bool
  | some v => v.ltZero
  | none => false

/-- Pydantic validation of a `DispatchDataCreate(...)` call
(`src/schemas/models.py`): the `file_type` string must coerce into the
`FileType` enum; `job_qty`, `bal_qty` and `report_creation_datetime` are
required (a `None` is a type error); the `validate_numeric_fields` validator
rejects negative numeric fields.  An `Except.error` models the raised
`ValidationError`. -/
def mkDispatchDataCreate
    (file_type work_cell job_number part_number : String)
    (comments : Option String) (job_qty bal_qty : Option PyFloat) (code : String)
    (prod_date : String) (est_compl_date : Option String) (and_on : Option String)
    (m_pc prod_hr : Option PyFloat)
    (report_start_date report_end_date report_department : String)
    (report_creation_datetime : Option String) (file_name : String) :
    Except String DispatchData :=
  if ¬ fileTypeValues.contains file_type then
    Except.error "value is not a valid FileType"
  else
    match job_qty, bal_qty, report_creation_datetime with
    | some jq, some bq, some rcd =>
      if jq.ltZero || bq.ltZero || optLtZero m_pc || optLtZero prod_hr then
        Except.error "Numeric values cannot be negative"
      else
        Except.ok {
          file_type := file_type, work_cell := work_cell,
          job_number := job_number, part_number := part_number,
          comments := comments, job_qty := jq, bal_qty := bq, code := code,
          prod_date := prod_date, est_compl_date := est_compl_date,
          and_on := and_on, m_pc := m_pc, prod_hr := prod_hr,
          report_start_date := report_start_date,
          report_end_date := report_end_date,
          report_department := report_department,
          report_creation_datetime := rcd, file_name := file_name,
          processing_status := "success" }
    | _, _, _ => Except.error "field required"

/-- The `FileProcessingSummary` (`src/schemas/models.py`); the counters start at
0 and the `upload_date` wall-clock stamp is outside the model. -/
structure FileProcessingSummary where
  file_name : String
  file_type : FileType
  total_rows : Nat := 0
  successful_rows : Nat := 0
  duplicate_rows : Nat := 0
  error_rows : Nat := 0
  skipped_rows : Nat := 0
deriving DecidableEq, Repr

/-! ## `_convert_to_float`

The three processors in the source tree carry byte-identical copies of this
method; it is defined once here. -/

/-- The `AssyFileProcessor._convert_to_float` (idem `Fabcut`, `LP`).  The argument
is `none` for a non-`str` (or `None`) Python value. -/
def convert_to_float (value : Option String) : Option PyFloat :=
  match value with
  | none => none
  | some v0 =>
    if v0 = "" then none
    else
      let v := pyStrip v0
      if v = "" then none
      else
        match pyFloat v with
        | some f => some f
        | none =>
          -- `value.startswith('(') and value.endswith(')')`
          if v.toList.head? = some '(' ∧ v.toList.getLast? = some ')' then
            match pyFloat (String.mk (v.toList.drop 1).dropLast) with
            | some f => some f.neg
            | none => none
          else none

/-! ## Format adapters (`src/processors/assy.py`, `fabcut.py`, `lp.py`) -/

/-- A `row[i]` access inside the `try` block of `_map_row_to_data`: an
out-of-range index raises `IndexError`, folded by the `except` clause into the
row's mapping error. -/
def getCell (row : List String) (i : Nat) : Except String String :=
  match row[i]? with
  | some c => Except.ok c
  | none => Except.error "IndexError"

/-- The `_extract_metadata`, byte-identical in the three processors of the source
tree: row 1 cell index 1 must parse as a date, row 2 cell index 2 must be
non-empty; a missing row (`StopIteration`) or short row (`IndexError`) is
folded into the same fatal `ValueError`. -/
def extract_metadata (file : List (List String)) : Except String (String × String) :=
  match file with
  | [] => Except.error "Failed to extract metadata"
  | row1 :: rest =>
    match row1[1]? with
    | none => Except.error "Failed to extract metadata"
    | some c1 =>
      match parse_date (some c1) with
      | none => Except.error "Invalid report start date"
      | some startDate =>
        match rest with
        | [] => Except.error "Failed to extract metadata"
        | row2 :: _ =>
          match row2[2]? with
          | none => Except.error "Failed to extract metadata"
          | some dept =>
            if dept = "" then Except.error "Missing department information"
            else Except.ok (startDate, dept)

/-- The `AssyFileProcessor._get_prod_date`: `parse_date(row[25])`, `IndexError → None`. -/
def assyGetProdDate (row : List String) : Option String :=
  match row[25]? with
  | some c => parse_date (some c)
  | none => none

/-- The `AssyFileProcessor._get_report_creation_datetime`: `parse_datetime(row[30])`. -/
def assyGetReportCreationDatetime (row : List String) : Option String :=
  match row[30]? with
  | some c => parse_datetime (some c)
  | none => none

/-- The `FabcutFileProcessor._get_prod_date`: `parse_date(row[22])`. -/
def fabcutGetProdDate (row : List String) : Option String :=
  match row[22]? with
  | some c => parse_date (some c)
  | none => none

/-- The `FabcutFileProcessor._get_report_creation_datetime`: `parse_datetime(row[25])`. -/
def fabcutGetReportCreationDatetime (row : List String) : Option String :=
  match row[25]? with
  | some c => parse_datetime (some c)
  | none => none

/-- The `LPFileProcessor._get_prod_date`: `parse_date(row[25])`. -/
def lpGetProdDate (row : List String) : Option String :=
  match row[25]? with
  | some c => parse_date (some c)
  | none => none

/-- The `LPFileProcessor._get_report_creation_datetime`: `parse_datetime(row[28])`. -/
def lpGetReportCreationDatetime (row : List String) : Option String :=
  match row[28]? with
  | some c => parse_datetime (some c)
  | none => none

/-- The `AssyFileProcessor._map_row_to_data`.  `Except.ok none` is the Python
`return None` (row skipped); `Except.error` is any exception inside the `try`
block (re-raised by the `except` clause as a `ValueError` and counted by the
pipeline as an error row). -/
def assyMapRow (fileName reportStartDate reportEndDate reportDepartment : String)
    (reportCreationDatetime : Option String) (row : List String) :
    Except String (Option DispatchData) :=
  -- `if all(not cell.strip() for cell in row[20:30]): return None`
  if (pySlice row 20 30).all (fun cell => pyStrip cell == "") then Except.ok none
  else do
    let c25 ← getCell row 25
    match parse_date (some c25) with
    | none => pure none
    | some prodDate => do
      let c26 ← getCell row 26
      let estComplDate := if c26 ≠ "" then parse_date (some c26) else none
      let c19 ← getCell row 19
      let c20 ← getCell row 20
      let c21 ← getCell row 21
      let c22 ← getCell row 22
      let c23 ← getCell row 23
      let c24 ← getCell row 24
      let c27 ← getCell row 27
      let c28 ← getCell row 28
      let c29 ← getCell row 29
      let d ← mkDispatchDataCreate FileType.ASSY.db_value c19 c20 c21 none
        (convert_to_float (some c22)) (convert_to_float (some c23)) c24
        prodDate estComplDate (some c27)
        (convert_to_float (some c28)) (convert_to_float (some c29))
        reportStartDate reportEndDate reportDepartment
        reportCreationDatetime fileName
      pure (some d)

/-- The `FabcutFileProcessor._map_row_to_data`. -/
def fabcutMapRow (fileName reportStartDate reportEndDate reportDepartment : String)
    (reportCreationDatetime : Option String) (row : List String) :
    Except String (Option DispatchData) :=
  -- `if all(not cell.strip() for cell in row[17:25]): return None`
  if (pySlice row 17 25).all (fun cell => pyStrip cell == "") then Except.ok none
  else do
    let c22 ← getCell row 22
    match parse_date (some c22) with
    | none => pure none
    | some prodDate => do
      let c16 ← getCell row 16
      let c17 ← getCell row 17
      let c18 ← getCell row 18
      let c19 ← getCell row 19
      let c20 ← getCell row 20
      let c21 ← getCell row 21
      let c23 ← getCell row 23
      let c24 ← getCell row 24
      let d ← mkDispatchDataCreate FileType.FABCUT.db_value c16 c17 c18 none
        (convert_to_float (some c19)) (convert_to_float (some c20)) c21
        prodDate none none
        (if c23 ≠ "" then convert_to_float (some c23) else none)
        (if c24 ≠ "" then convert_to_float (some c24) else none)
        reportStartDate reportEndDate reportDepartment
        reportCreationDatetime fileName
      pure (some d)

/-- The `LPFileProcessor._map_row_to_data`. -/
def lpMapRow (fileName reportStartDate reportEndDate reportDepartment : String)
    (reportCreationDatetime : Option String) (row : List String) :
    Except String (Option DispatchData) :=
  -- `if all(not cell.strip() for cell in row[19:28]): return None`
  if (pySlice row 19 28).all (fun cell => pyStrip cell == "") then Except.ok none
  else do
    let c25 ← getCell row 25
    match parse_date (some c25) with
    | none => pure none
    | some prodDate => do
      let c18 ← getCell row 18
      let c19 ← getCell row 19
      let c20 ← getCell row 20
      let c21 ← getCell row 21
      let c22 ← getCell row 22
      let c23 ← getCell row 23
      let c24 ← getCell row 24
      let c26 ← getCell row 26
      let c27 ← getCell row 27
      let d ← mkDispatchDataCreate FileType.LP.db_value c18 c19 c20 (some c21)
        (convert_to_float (some c22)) (convert_to_float (some c23)) c24
        prodDate none none
        (if c26 ≠ "" then convert_to_float (some c26) else none)
        (if c27 ≠ "" then convert_to_float (some c27) else none)
        reportStartDate reportEndDate reportDepartment
        reportCreationDatetime fileName
      pure (some d)

/-- The capability set of a `FileProcessor` subclass, as `base.py` consumes it. -/
structure Processor where
  file_type : FileType
  extractMetadata : List (List String) → Except String (String × String)
  getProdDate : List String → Option String
  getReportCreationDatetime : List String → Option String
  mapRowToData : String → String → String → String → Option String → List String →
    Except String (Option DispatchData)

def assyProcessor : Processor :=
  { file_type := FileType.ASSY
    extractMetadata := extract_metadata
    getProdDate := assyGetProdDate
    getReportCreationDatetime := assyGetReportCreationDatetime
    mapRowToData := assyMapRow }

def fabcutProcessor : Processor :=
  { file_type := FileType.FABCUT
    extractMetadata := extract_metadata
    getProdDate := fabcutGetProdDate
    getReportCreationDatetime := fabcutGetReportCreationDatetime
    mapRowToData := fabcutMapRow }

def lpProcessor : Processor :=
  { file_type := FileType.LP
    extractMetadata := extract_metadata
    getProdDate := lpGetProdDate
    getReportCreationDatetime := lpGetReportCreationDatetime
    mapRowToData := lpMapRow }

/-! ## The ingestion pipeline (`src/processors/base.py`) -/

/-- SQL `col = ?` on two nullable string operands: a `NULL` on either side
makes the comparison untrue (Python `None` binds as SQL `NULL`, and
`NULL = NULL` is not true). -/
def sqlEqOptStr : Option String → Option String → Bool
  | some a, some b => a == b
  | _, _ => false

/-- SQL `col = ?` on two float operands (numeric equality of the stored REAL
values).  `nan` is bound as `NULL` by `sqlite3`, so it never compares equal. -/
def sqlEqFloat : PyFloat → PyFloat → Bool
  | .finite a, .finite b => a.eqv b
  | .inf, .inf => true
  | .neginf, .neginf => true
  | _, _ => false

def sqlEqOptFloat : Option PyFloat → Option PyFloat → Bool
  | some a, some b => sqlEqFloat a b
  | _, _ => false

/-- The WHERE clause of `FileProcessor.row_exists`: the 12-field duplicate-key
tuple, column by column, with SQL comparison semantics. -/
def rowMatches (r d : DispatchData) : Bool :=
  r.file_type == d.file_type && r.work_cell == d.work_cell &&
  r.job_number == d.job_number && r.part_number == d.part_number &&
  sqlEqFloat r.job_qty d.job_qty && sqlEqFloat r.bal_qty d.bal_qty &&
  r.code == d.code && r.prod_date == d.prod_date &&
  sqlEqOptStr r.est_compl_date d.est_compl_date &&
  sqlEqOptStr r.and_on d.and_on &&
  sqlEqOptFloat r.m_pc d.m_pc && sqlEqOptFloat r.prod_hr d.prod_hr

/-- The `FileProcessor.row_exists`: `SELECT COUNT(*) ... > 0` over the record
store. -/
def row_exists (db : List DispatchData) (d : DispatchData) : Bool :=
  db.any fun r => rowMatches r d

/-- The body of the first-pass loop of `process_file`:
`if prod_date and (max_prod_date is None or prod_date > max_prod_date)` then
replace the running maximum.  (`_get_prod_date` never raises, so the
`except` clause of this loop is dead code.) -/
def first_pass_step (p : Processor) (acc : Option String) (row : List String) :
    Option String :=
  match p.getProdDate row, acc with
  | some pd, none => some pd
  | some pd, some m => if m < pd then some pd else some m
  | none, _ => acc

/-- The first pass of `process_file`: track the maximum successfully parsed
production date over all data rows (string comparison on the canonical
`YYYY-MM-DD` form, as in the source). -/
def first_pass_max (p : Processor) (rows : List (List String)) : Option String :=
  rows.foldl (first_pass_step p) none

/-- The body of the second-pass loop of `process_file` for one row:
increment `total_rows`, then classify the row into exactly one of the four
outcome counters; a new record is appended to the store (`_insert_data`). -/
def process_row (p : Processor) (fileName reportStartDate reportEndDate reportDepartment : String)
    (st : FileProcessingSummary × List DispatchData) (row : List String) :
    FileProcessingSummary × List DispatchData :=
  let s := { st.1 with total_rows := st.1.total_rows + 1 }
  let db := st.2
  match p.mapRowToData fileName reportStartDate reportEndDate reportDepartment
      (p.getReportCreationDatetime row) row with
  | Except.error _ => ({ s with error_rows := s.error_rows + 1 }, db)
  | Except.ok none => ({ s with skipped_rows := s.skipped_rows + 1 }, db)
  | Except.ok (some d) =>
    if row_exists db d then ({ s with duplicate_rows := s.duplicate_rows + 1 }, db)
    else ({ s with successful_rows := s.successful_rows + 1 }, db ++ [d])

/-- The `FileProcessor.process_file`: metadata extraction (fatal on failure),
first pass for `report_end_date`, second pass classifying every data row.
Returns the summary and the resulting record store. -/
def process_file (p : Processor) (fileName : String) (file : List (List String))
    (db : List DispatchData) :
    Except String (FileProcessingSummary × List DispatchData) :=
  match p.extractMetadata file with
  | Except.error e => Except.error e
  | Except.ok (reportStartDate, reportDepartment) =>
    let dataRows := file.drop 2
    let reportEndDate := (first_pass_max p dataRows).getD reportStartDate
    let init : FileProcessingSummary := { file_name := fileName, file_type := p.file_type }
    Except.ok (dataRows.foldl
      (process_row p fileName reportStartDate reportEndDate reportDepartment)
      (init, db))

/-! ## The `_insert_data` column binding (`src/processors/base.py`)

`_insert_data` executes `INSERT INTO dispatch_data (...) VALUES (?, ...)` with
`tuple(data.model_dump().values())` as the parameters, so the i-th SQL column
of the INSERT receives the i-th model field.  The two orders are recorded
verbatim below. -/

/-- The column list of the INSERT statement in `_insert_data`, in source
order. -/
def insertSqlColumns : List String :=
  ["file_type", "work_cell", "job_number", "part_number", "comments",
   "job_qty", "bal_qty", "code", "prod_date", "est_compl_date", "and_on",
   "m_pc", "prod_hr", "report_start_date", "report_end_date",
   "report_department", "report_creation_datetime", "upload_date",
   "file_name", "processing_status"]

/-- The field order of `DispatchDataCreate.model_dump()`: pydantic emits the
base-class fields of `DispatchDataBase` in declaration order, then the fields
`DispatchDataCreate` adds (`file_name`, `processing_status`, `upload_date`),
in declaration order. -/
def modelDumpFields : List String :=
  ["file_type", "work_cell", "job_number", "part_number", "comments",
   "job_qty", "bal_qty", "code", "prod_date", "est_compl_date", "and_on",
   "m_pc", "prod_hr", "report_start_date", "report_end_date",
   "report_department", "report_creation_datetime", "file_name",
   "processing_status", "upload_date"]

/-! ## Helper lemmas -/

theorem exceptBind_ok {α β ε : Type} (a : α) (f : α → Except ε β) :
    (Except.ok a : Except ε α) >>= f = f a := rfl

theorem exceptBind_error {α β ε : Type} (e : ε) (f : α → Except ε β) :
    (Except.error e : Except ε α) >>= f = Except.error e := rfl

theorem map_some_ne_ok_none {α ε : Type} (e : Except ε α) :
    some <$> e ≠ (Except.ok none : Except ε (Option α)) := by
  cases e <;> simp [Functor.map, Except.map]

theorem map_some_eq_ok_some {α ε : Type} {e : Except ε α} {d : α}
    (h : some <$> e = (Except.ok (some d) : Except ε (Option α))) :
    e = Except.ok d := by
  cases e <;> simp_all [Functor.map, Except.map]

theorem mk_ok_spec {ft wc jn pn cd pd rsd red dep fn : String}
    {cm ecd ao : Option String} {jq bq mp ph : Option PyFloat} {rcdt : Option String}
    {d : DispatchData}
    (h : mkDispatchDataCreate ft wc jn pn cm jq bq cd pd ecd ao mp ph rsd red dep rcdt fn
      = Except.ok d) :
    fileTypeValues.contains ft = true ∧
    d.file_type = ft ∧ d.report_start_date = rsd ∧ d.report_end_date = red ∧
    d.prod_date = pd ∧ d.est_compl_date = ecd ∧ d.and_on = ao ∧
    jq = some d.job_qty ∧ bq = some d.bal_qty ∧
    d.job_qty.ltZero = false ∧ d.bal_qty.ltZero = false ∧
    d.m_pc = mp ∧ d.prod_hr = ph ∧ optLtZero mp = false ∧ optLtZero ph = false := by
  unfold mkDispatchDataCreate at h
  split at h
  · exact absurd h (by simp)
  · rename_i hft
    split at h
    · rename_i jqv bqv rcdv heq
      split at h
      · exact absurd h (by simp)
      · rename_i hneg
        rw [Except.ok.injEq] at h
        subst h
        simp only [Bool.or_eq_true, not_or] at hneg
        simp_all
    · exact absurd h (by simp)

theorem assyMapRow_ok_none {fn rsd red dept : String} {rcd : Option String}
    {row : List String}
    (h : assyMapRow fn rsd red dept rcd row = Except.ok none) :
    (pySlice row 20 30).all (fun cell => pyStrip cell == "") = true ∨
    (∃ c25, row[25]? = some c25 ∧ parse_date (some c25) = none) := by
  unfold assyMapRow at h
  split at h
  · left; assumption
  · right
    rcases h25 : row[25]? with _ | c25
    · simp [getCell, h25, exceptBind_error] at h
    · simp only [getCell, h25, exceptBind_ok, exceptBind_error] at h
      rcases hpd : parse_date (some c25) with _ | prodDate
      · exact ⟨c25, rfl, hpd⟩
      · exfalso
        rw [hpd] at h
        simp only at h
        rcases h26 : row[26]? with _ | c26
        · simp [getCell, h26, exceptBind_error] at h
        · simp only [getCell, h26, exceptBind_ok, exceptBind_error] at h
          rcases h19 : row[19]? with _ | c19
          · simp [getCell, h19, exceptBind_error] at h
          · simp only [getCell, h19, exceptBind_ok, exceptBind_error] at h
            rcases h20 : row[20]? with _ | c20
            · simp [getCell, h20, exceptBind_error] at h
            · simp only [getCell, h20, exceptBind_ok, exceptBind_error] at h
              rcases h21 : row[21]? with _ | c21
              · simp [getCell, h21, exceptBind_error] at h
              · simp only [getCell, h21, exceptBind_ok, exceptBind_error] at h
                rcases h22 : row[22]? with _ | c22
                · simp [getCell, h22, exceptBind_error] at h
                · simp only [getCell, h22, exceptBind_ok, exceptBind_error] at h
                  rcases h23 : row[23]? with _ | c23
                  · simp [getCell, h23, exceptBind_error] at h
                  · simp only [getCell, h23, exceptBind_ok, exceptBind_error] at h
                    rcases h24 : row[24]? with _ | c24
                    · simp [getCell, h24, exceptBind_error] at h
                    · simp only [getCell, h24, exceptBind_ok, exceptBind_error] at h
                      rcases h27 : row[27]? with _ | c27
                      · simp [getCell, h27, exceptBind_error] at h
                      · simp only [getCell, h27, exceptBind_ok, exceptBind_error] at h
                        rcases h28 : row[28]? with _ | c28
                        · simp [getCell, h28, exceptBind_error] at h
                        · simp only [getCell, h28, exceptBind_ok, exceptBind_error] at h
                          rcases h29 : row[29]? with _ | c29
                          · simp [getCell, h29, exceptBind_error] at h
                          · simp only [getCell, h29, exceptBind_ok, exceptBind_error] at h
                            exact map_some_ne_ok_none _ h


theorem assyMapRow_ok_some {fn rsd red dept : String} {rcd : Option String}
    {row : List String} {d : DispatchData}
    (h : assyMapRow fn rsd red dept rcd row = Except.ok (some d)) :
    d.file_type = "Assy" ∧ d.report_start_date = rsd ∧ d.report_end_date = red ∧
    (∃ c22, row[22]? = some c22 ∧ convert_to_float (some c22) = some d.job_qty) ∧
    d.job_qty.ltZero = false ∧
    (∃ c23, row[23]? = some c23 ∧ convert_to_float (some c23) = some d.bal_qty) ∧
    d.bal_qty.ltZero = false ∧
    (∃ c28, row[28]? = some c28 ∧ d.m_pc = convert_to_float (some c28)) ∧
    optLtZero d.m_pc = false ∧
    (∃ c29, row[29]? = some c29 ∧ d.prod_hr = convert_to_float (some c29)) ∧
    optLtZero d.prod_hr = false := by
  unfold assyMapRow at h
  split at h
  · exact absurd h (by simp)
  · rcases h25 : row[25]? with _ | c25
    · simp [getCell, h25, exceptBind_error] at h
    · simp only [getCell, h25, exceptBind_ok, exceptBind_error] at h
      rcases hpd : parse_date (some c25) with _ | prodDate
      · rw [hpd] at h
        exact absurd h (by simp [pure, Except.pure])
      · rw [hpd] at h
        simp only at h
        rcases h26 : row[26]? with _ | c26
        · simp [getCell, h26, exceptBind_error] at h
        · simp only [getCell, h26, exceptBind_ok, exceptBind_error] at h
          rcases h19 : row[19]? with _ | c19
          · simp [getCell, h19, exceptBind_error] at h
          · simp only [getCell, h19, exceptBind_ok, exceptBind_error] at h
            rcases h20 : row[20]? with _ | c20
            · simp [getCell, h20, exceptBind_error] at h
            · simp only [getCell, h20, exceptBind_ok, exceptBind_error] at h
              rcases h21 : row[21]? with _ | c21
              · simp [getCell, h21, exceptBind_error] at h
              · simp only [getCell, h21, exceptBind_ok, exceptBind_error] at h
                rcases h22 : row[22]? with _ | c22
                · simp [getCell, h22, exceptBind_error] at h
                · simp only [getCell, h22, exceptBind_ok, exceptBind_error] at h
                  rcases h23 : row[23]? with _ | c23
                  · simp [getCell, h23, exceptBind_error] at h
                  · simp only [getCell, h23, exceptBind_ok, exceptBind_error] at h
                    rcases h24 : row[24]? with _ | c24
                    · simp [getCell, h24, exceptBind_error] at h
                    · simp only [getCell, h24, exceptBind_ok, exceptBind_error] at h
                      rcases h27 : row[27]? with _ | c27
                      · simp [getCell, h27, exceptBind_error] at h
                      · simp only [getCell, h27, exceptBind_ok, exceptBind_error] at h
                        rcases h28 : row[28]? with _ | c28
                        · simp [getCell, h28, exceptBind_error] at h
                        · simp only [getCell, h28, exceptBind_ok, exceptBind_error] at h
                          rcases h29 : row[29]? with _ | c29
                          · simp [getCell, h29, exceptBind_error] at h
                          · simp only [getCell, h29, exceptBind_ok, exceptBind_error] at h
                            have hmk := map_some_eq_ok_some h
                            obtain ⟨-, hft, hrsd, hred, -, -, -, hjq, hbq,
                              hjqn, hbqn, hmpc, hphr, hmpn, hphn⟩ := mk_ok_spec hmk
                            refine ⟨by simp [hft, FileType.db_value, FileType.value], hrsd, hred,
                              ⟨c22, rfl, hjq⟩, hjqn, ⟨c23, rfl, hbq⟩, hbqn,
                              ⟨c28, rfl, hmpc⟩, ?_, ⟨c29, rfl, hphr⟩, ?_⟩
                            · rw [hmpc]; exact hmpn
                            · rw [hphr]; exact hphn


theorem fabcutMapRow_ok_some {fn rsd red dept : String} {rcd : Option String}
    {row : List String} {d : DispatchData}
    (h : fabcutMapRow fn rsd red dept rcd row = Except.ok (some d)) :
    d.file_type = "Fabcut" ∧ d.report_start_date = rsd ∧ d.report_end_date = red := by
  unfold fabcutMapRow at h
  split at h
  · exact absurd h (by simp)
  · rcases h22 : row[22]? with _ | c22
    · simp [getCell, h22, exceptBind_error] at h
    · simp only [getCell, h22, exceptBind_ok, exceptBind_error] at h
      rcases hpd : parse_date (some c22) with _ | prodDate
      · rw [hpd] at h
        exact absurd h (by simp [pure, Except.pure])
      · rw [hpd] at h
        simp only at h
        rcases h16 : row[16]? with _ | c16
        · simp [getCell, h16, exceptBind_error] at h
        · simp only [getCell, h16, exceptBind_ok, exceptBind_error] at h
          rcases h17 : row[17]? with _ | c17
          · simp [getCell, h17, exceptBind_error] at h
          · simp only [getCell, h17, exceptBind_ok, exceptBind_error] at h
            rcases h18 : row[18]? with _ | c18
            · simp [getCell, h18, exceptBind_error] at h
            · simp only [getCell, h18, exceptBind_ok, exceptBind_error] at h
              rcases h19 : row[19]? with _ | c19
              · simp [getCell, h19, exceptBind_error] at h
              · simp only [getCell, h19, exceptBind_ok, exceptBind_error] at h
                rcases h20 : row[20]? with _ | c20
                · simp [getCell, h20, exceptBind_error] at h
                · simp only [getCell, h20, exceptBind_ok, exceptBind_error] at h
                  rcases h21 : row[21]? with _ | c21
                  · simp [getCell, h21, exceptBind_error] at h
                  · simp only [getCell, h21, exceptBind_ok, exceptBind_error] at h
                    rcases h23 : row[23]? with _ | c23
                    · simp [getCell, h23, exceptBind_error] at h
                    · simp only [getCell, h23, exceptBind_ok, exceptBind_error] at h
                      rcases h24 : row[24]? with _ | c24
                      · simp [getCell, h24, exceptBind_error] at h
                      · simp only [getCell, h24, exceptBind_ok, exceptBind_error] at h
                        have hmk := map_some_eq_ok_some h
                        obtain ⟨-, hft, hrsd, hred, -⟩ := mk_ok_spec hmk
                        exact ⟨by simp [hft, FileType.db_value, FileType.value], hrsd, hred⟩

theorem lpMapRow_ok_some {fn rsd red dept : String} {rcd : Option String}
    {row : List String} {d : DispatchData}
    (h : lpMapRow fn rsd red dept rcd row = Except.ok (some d)) :
    d.file_type = "LP" ∧ d.report_start_date = rsd ∧ d.report_end_date = red := by
  unfold lpMapRow at h
  split at h
  · exact absurd h (by simp)
  · rcases h25 : row[25]? with _ | c25
    · simp [getCell, h25, exceptBind_error] at h
    · simp only [getCell, h25, exceptBind_ok, exceptBind_error] at h
      rcases hpd : parse_date (some c25) with _ | prodDate
      · rw [hpd] at h
        exact absurd h (by simp [pure, Except.pure])
      · rw [hpd] at h
        simp only at h
        rcases h18 : row[18]? with _ | c18
        · simp [getCell, h18, exceptBind_error] at h
        · simp only [getCell, h18, exceptBind_ok, exceptBind_error] at h
          rcases h19 : row[19]? with _ | c19
          · simp [getCell, h19, exceptBind_error] at h
          · simp only [getCell, h19, exceptBind_ok, exceptBind_error] at h
            rcases h20 : row[20]? with _ | c20
            · simp [getCell, h20, exceptBind_error] at h
            · simp only [getCell, h20, exceptBind_ok, exceptBind_error] at h
              rcases h21 : row[21]? with _ | c21
              · simp [getCell, h21, exceptBind_error] at h
              · simp only [getCell, h21, exceptBind_ok, exceptBind_error] at h
                rcases h22 : row[22]? with _ | c22
                · simp [getCell, h22, exceptBind_error] at h
                · simp only [getCell, h22, exceptBind_ok, exceptBind_error] at h
                  rcases h23 : row[23]? with _ | c23
                  · simp [getCell, h23, exceptBind_error] at h
                  · simp only [getCell, h23, exceptBind_ok, exceptBind_error] at h
                    rcases h24 : row[24]? with _ | c24
                    · simp [getCell, h24, exceptBind_error] at h
                    · simp only [getCell, h24, exceptBind_ok, exceptBind_error] at h
                      rcases h26 : row[26]? with _ | c26
                      · simp [getCell, h26, exceptBind_error] at h
                      · simp only [getCell, h26, exceptBind_ok, exceptBind_error] at h
                        rcases h27 : row[27]? with _ | c27
                        · simp [getCell, h27, exceptBind_error] at h
                        · simp only [getCell, h27, exceptBind_ok, exceptBind_error] at h
                          have hmk := map_some_eq_ok_some h
                          obtain ⟨-, hft, hrsd, hred, -⟩ := mk_ok_spec hmk
                          exact ⟨by simp [hft, FileType.db_value, FileType.value], hrsd, hred⟩


theorem process_row_counts (p : Processor) (fn rsd red dept : String)
    (st : FileProcessingSummary × List DispatchData) (row : List String) :
    (process_row p fn rsd red dept st row).1.total_rows = st.1.total_rows + 1 ∧
    (process_row p fn rsd red dept st row).1.successful_rows
        + (process_row p fn rsd red dept st row).1.duplicate_rows
        + (process_row p fn rsd red dept st row).1.error_rows
        + (process_row p fn rsd red dept st row).1.skipped_rows
      = st.1.successful_rows + st.1.duplicate_rows + st.1.error_rows
        + st.1.skipped_rows + 1 ∧
    (process_row p fn rsd red dept st row).1.file_name = st.1.file_name ∧
    (process_row p fn rsd red dept st row).1.file_type = st.1.file_type := by
  unfold process_row
  split
  · simp_arith
  · simp_arith
  · dsimp only
    split <;> simp_arith

theorem foldl_process_row_counts (p : Processor) (fn rsd red dept : String)
    (rows : List (List String)) :
    ∀ st : FileProcessingSummary × List DispatchData,
    ((rows.foldl (process_row p fn rsd red dept) st).1.total_rows
        = st.1.total_rows + rows.length) ∧
    ((rows.foldl (process_row p fn rsd red dept) st).1.successful_rows
        + (rows.foldl (process_row p fn rsd red dept) st).1.duplicate_rows
        + (rows.foldl (process_row p fn rsd red dept) st).1.error_rows
        + (rows.foldl (process_row p fn rsd red dept) st).1.skipped_rows
      = st.1.successful_rows + st.1.duplicate_rows + st.1.error_rows
        + st.1.skipped_rows + rows.length) := by
  induction rows with
  | nil => intro st; simp
  | cons r rows ih =>
    intro st
    obtain ⟨h1, h2, -, -⟩ := process_row_counts p fn rsd red dept st r
    obtain ⟨ih1, ih2⟩ := ih (process_row p fn rsd red dept st r)
    simp only [List.foldl_cons, List.length_cons]
    omega

theorem process_row_db (p : Processor) (fn rsd red dept : String)
    (st : FileProcessingSummary × List DispatchData) (row : List String) :
    (process_row p fn rsd red dept st row).2 = st.2 ∨
    ∃ d, p.mapRowToData fn rsd red dept (p.getReportCreationDatetime row) row
          = Except.ok (some d) ∧
        (process_row p fn rsd red dept st row).2 = st.2 ++ [d] := by
  unfold process_row
  split
  · left; rfl
  · left; rfl
  · rename_i d hm
    dsimp only
    split
    · left; rfl
    · right; exact ⟨d, hm, rfl⟩

theorem foldl_process_row_db (p : Processor) (fn rsd red dept : String)
    (P : DispatchData → Prop)
    (hP : ∀ rcd row d, p.mapRowToData fn rsd red dept rcd row = Except.ok (some d) → P d)
    (rows : List (List String)) :
    ∀ st : FileProcessingSummary × List DispatchData,
    ∃ extra, (rows.foldl (process_row p fn rsd red dept) st).2 = st.2 ++ extra ∧
      ∀ d ∈ extra, P d := by
  induction rows with
  | nil => intro st; exact ⟨[], by simp, by simp⟩
  | cons r rows ih =>
    intro st
    obtain ⟨extra, hdb, hext⟩ := ih (process_row p fn rsd red dept st r)
    rcases process_row_db p fn rsd red dept st r with h | ⟨d, hm, h⟩
    · exact ⟨extra, by simpa [List.foldl_cons, h] using hdb, hext⟩
    · refine ⟨d :: extra, ?_, ?_⟩
      · simp only [List.foldl_cons]
        rw [hdb, h]
        simp
      · intro x hx
        rcases List.mem_cons.mp hx with rfl | hx
        · exact hP _ _ _ hm
        · exact hext x hx

theorem first_pass_aux (p : Processor) (rows : List (List String)) :
    ∀ acc : Option String,
    (rows.foldl (first_pass_step p) acc = none → acc = none) ∧
    (∀ a, acc = some a →
        ∃ m, rows.foldl (first_pass_step p) acc = some m ∧ a ≤ m) ∧
    (∀ row ∈ rows, ∀ pd, p.getProdDate row = some pd →
        ∃ m, rows.foldl (first_pass_step p) acc = some m ∧ pd ≤ m) ∧
    (∀ m, rows.foldl (first_pass_step p) acc = some m →
        acc = some m ∨ ∃ row ∈ rows, p.getProdDate row = some m) := by
  induction rows with
  | nil =>
    intro acc
    refine ⟨fun _ => by assumption, ?_, ?_, ?_⟩
    · intro a ha; exact ⟨a, by simpa using ha, le_refl a⟩
    · intro row hrow; cases hrow
    · intro m hm; left; simpa using hm
  | cons r rows ih =>
    intro acc
    have hstep : ∀ m', first_pass_step p acc r = some m' →
        (acc = some m' ∨ p.getProdDate r = some m') ∧ (∀ a, acc = some a → a ≤ m') := by
      intro m' hm'
      unfold first_pass_step at hm'
      rcases hgp : p.getProdDate r with _ | pd <;>
        rcases hacc : acc with _ | m0 <;> simp only [hgp, hacc] at hm' ⊢
      · cases hm'
      · cases hm'
        exact ⟨Or.inl rfl, fun a ha => by cases ha; exact le_refl _⟩
      · cases hm'
        exact ⟨Or.inr rfl, fun a ha => by cases ha⟩
      · by_cases hlt : m0 < pd
        · rw [if_pos hlt] at hm'
          cases hm'
          exact ⟨Or.inr rfl, fun a ha => by cases ha; exact le_of_lt hlt⟩
        · rw [if_neg hlt] at hm'
          cases hm'
          exact ⟨Or.inl rfl, fun a ha => by cases ha; exact le_refl _⟩
    have hstep_ne : ∀ a, acc = some a → ∃ m', first_pass_step p acc r = some m' ∧ a ≤ m' := by
      intro a ha
      unfold first_pass_step
      rcases hgp : p.getProdDate r with _ | pd
      · exact ⟨a, by simp [ha], le_refl a⟩
      · by_cases hlt : a < pd
        · exact ⟨pd, by simp [ha, hlt], le_of_lt hlt⟩
        · exact ⟨a, by simp [ha, hlt], le_refl a⟩
    have hstep_r : ∀ pd, p.getProdDate r = some pd →
        ∃ m', first_pass_step p acc r = some m' ∧ pd ≤ m' := by
      intro pd hgp
      unfold first_pass_step
      rcases hacc : acc with _ | m0
      · exact ⟨pd, by simp [hgp], le_refl pd⟩
      · by_cases hlt : m0 < pd
        · exact ⟨pd, by simp [hgp, hlt], le_refl pd⟩
        · exact ⟨m0, by simp [hgp, hlt], le_of_not_lt hlt⟩
    obtain ⟨ih1, ih2, ih3, ih4⟩ := ih (first_pass_step p acc r)
    rw [List.foldl_cons]
    refine ⟨?_, ?_, ?_, ?_⟩
    · intro hnone
      have hacc' := ih1 hnone
      unfold first_pass_step at hacc'
      rcases hgp : p.getProdDate r with _ | pd <;> simp only [hgp] at hacc'
      · exact hacc'
      · rcases hacc : acc with _ | m0 <;> simp only [hacc] at hacc'
        · cases hacc'
        · split at hacc' <;> cases hacc'
    · intro a ha
      obtain ⟨m', hm', ham'⟩ := hstep_ne a ha
      obtain ⟨m, hm, hm'm⟩ := ih2 m' hm'
      exact ⟨m, hm, le_trans ham' hm'm⟩
    · intro row hrow pd hpd
      rcases List.mem_cons.mp hrow with rfl | hrow
      · obtain ⟨m', hm', hpm'⟩ := hstep_r pd hpd
        obtain ⟨m, hm, hm'm⟩ := ih2 m' hm'
        exact ⟨m, hm, le_trans hpm' hm'm⟩
      · exact ih3 row hrow pd hpd
    · intro m hm
      rcases ih4 m hm with hacc' | ⟨row, hrow, hrowpd⟩
      · rcases (hstep m hacc').1 with h | h
        · exact Or.inl h
        · exact Or.inr ⟨r, List.mem_cons_self r rows, h⟩
      · exact Or.inr ⟨row, List.mem_cons_of_mem r hrow, hrowpd⟩

theorem first_pass_max_none {p : Processor} {rows : List (List String)}
    (h : first_pass_max p rows = none) :
    ∀ row ∈ rows, p.getProdDate row = none := by
  intro row hrow
  rcases hgp : p.getProdDate row with _ | pd
  · rfl
  · obtain ⟨m, hm, -⟩ := (first_pass_aux p rows none).2.2.1 row hrow pd hgp
    rw [first_pass_max] at h
    rw [h] at hm
    cases hm

theorem first_pass_max_some {p : Processor} {rows : List (List String)} {m : String}
    (h : first_pass_max p rows = some m) :
    (∃ row ∈ rows, p.getProdDate row = some m) ∧
    ∀ row ∈ rows, ∀ pd, p.getProdDate row = some pd → pd ≤ m := by
  constructor
  · rcases (first_pass_aux p rows none).2.2.2 m h with hc | hex
    · cases hc
    · exact hex
  · intro row hrow pd hpd
    obtain ⟨m', hm', hpm'⟩ := (first_pass_aux p rows none).2.2.1 row hrow pd hpd
    rw [first_pass_max] at h
    rw [h] at hm'
    cases hm'
    exact hpm'

theorem extract_metadata_take_two (file : List (List String)) :
    extract_metadata file = extract_metadata (file.take 2) := by
  match file with
  | [] => rfl
  | [r1] => rfl
  | r1 :: r2 :: rest => rfl

theorem extract_metadata_ok_iff (file : List (List String)) (startDate dept : String) :
    extract_metadata file = Except.ok (startDate, dept) ↔
      ∃ r1 r2 rest c1, file = r1 :: r2 :: rest ∧ r1[1]? = some c1 ∧
        parse_date (some c1) = some startDate ∧ r2[2]? = some dept ∧ dept ≠ "" := by
  constructor
  · intro h
    match file with
    | [] => cases h
    | r1 :: rest1 =>
      unfold extract_metadata at h
      dsimp only at h
      rcases h1 : r1[1]? with _ | c1 <;> simp only [h1] at h
      · cases h
      · rcases hpd : parse_date (some c1) with _ | sd <;> simp only [hpd] at h
        · cases h
        · match rest1 with
          | [] => cases h
          | r2 :: rest =>
            rcases h2 : r2[2]? with _ | c2 <;> simp only [h2] at h
            · cases h
            · by_cases hd : c2 = ""
              · rw [if_pos hd] at h; cases h
              · rw [if_neg hd] at h
                rw [Except.ok.injEq, Prod.mk.injEq] at h
                obtain ⟨hsd, hdept⟩ := h
                subst hsd; subst hdept
                exact ⟨r1, r2, rest, c1, rfl, h1, hpd, h2, hd⟩
  · rintro ⟨r1, r2, rest, c1, rfl, h1, hpd, h2, hd⟩
    unfold extract_metadata
    simp only [h1, hpd, h2, if_neg hd]

theorem process_file_metadata_error (p : Processor) (fn : String)
    (file : List (List String)) (db : List DispatchData) (e : String)
    (h : p.extractMetadata file = Except.error e) :
    process_file p fn file db = Except.error e := by
  unfold process_file
  rw [h]

/-! ## Concrete example files

Small Assy-layout CSV files used to evaluate the pipeline at concrete
inputs.  Data cells start at index 19; index 25 is `prod_date`, 26
`est_compl_date`, 30 the report-creation timestamp. -/

/-- Nineteen leading filler cells of an Assy data row. -/
def blankPrefix19 : List String :=
  ["", "", "", "", "", "", "", "", "", "", "", "", "", "", "", "", "", "", ""]

/-- A fully populated valid Assy data row (every duplicate-key field
non-NULL). -/
def assyFullRow : List String :=
  blankPrefix19 ++ ["WC1", "J1", "P1", "5", "3", "C1", "30-Sep-24", "15-Oct-24",
    "note", "1", "2", "2024-09-27 16:12:15"]

/-- A valid Assy data row whose `est_compl_date` cell is empty, so the record
is stored with `est_compl_date = NULL`. -/
def assyNullEstRow : List String :=
  blankPrefix19 ++ ["WC1", "J1", "P1", "5", "3", "C1", "30-Sep-24", "",
    "note", "1", "2", "2024-09-27 16:12:15"]

/-- An Assy data row whose `job_qty` cell holds accounting-notation `"(5)"`,
normalizing to `-5.0`. -/
def assyNegRow : List String :=
  blankPrefix19 ++ ["WC2", "J2", "P2", "(5)", "3", "C1", "30-Sep-24", "15-Oct-24",
    "note", "1", "2", "2024-09-27 16:12:15"]

/-- The two metadata rows shared by the example files. -/
def exampleMeta : List (List String) :=
  [["Report", "30-Sep-24"], ["", "", "Dept A"]]

/-- One valid row, one short junk row, one negative-quantity row. -/
def c9File : List (List String) :=
  exampleMeta ++ [assyFullRow, ["JUNK"], assyNegRow]

/-- A well-formed Assy file with a single data row whose `est_compl_date` is
empty (stored as `NULL`). -/
def c1File : List (List String) :=
  exampleMeta ++ [assyNullEstRow]

/-! ## Claim theorems -/

/-- The **C7.** Metadata extraction reads exactly the first two rows of the file:
row 1 cell index 1 must parse as a date (`report_start_date`) and row 2 cell
index 2 must be a non-empty string (`report_department`); if either check
fails, a metadata row is missing, or a row is shorter than the required
index, `extract_metadata` fails, and `process_file` propagates that failure
as a file-level error, so no `FileProcessingSummary` is produced.  The three
processors of the source tree all use this extraction. -/
theorem C7_metadata_extraction_contract :
    (∀ file, extract_metadata file = extract_metadata (file.take 2)) ∧
    (∀ file startDate dept,
        extract_metadata file = Except.ok (startDate, dept) ↔
          ∃ r1 r2 rest c1, file = r1 :: r2 :: rest ∧ r1[1]? = some c1 ∧
            parse_date (some c1) = some startDate ∧ r2[2]? = some dept ∧ dept ≠ "") ∧
    (assyProcessor.extractMetadata = extract_metadata ∧
     fabcutProcessor.extractMetadata = extract_metadata ∧
     lpProcessor.extractMetadata = extract_metadata) ∧
    (∀ p fn file db e, p.extractMetadata file = Except.error e →
        process_file p fn file db = Except.error e) :=
  ⟨extract_metadata_take_two, extract_metadata_ok_iff, ⟨rfl, rfl, rfl⟩,
   process_file_metadata_error⟩

/-- Witness for C7 at concrete inputs: a file whose first row's cell 1 is
unparseable is rejected by `process_file` whole; a well-formed two-row header
extracts its metadata. -/
theorem C7_metadata_extraction_contract_witness :
    extract_metadata [["x", "notadate", "y"]] = extract_metadata ([["x", "notadate", "y"]].take 2) ∧
    extract_metadata [["Report", "30-Sep-24"], ["", "", "Dept A"]]
      = Except.ok ("2024-09-30", "Dept A") ∧
    process_file assyProcessor "a.csv" [["x"]] []
      = Except.error "Failed to extract metadata" := by
  refine ⟨C7_metadata_extraction_contract.1 _, ?_, ?_⟩
  · exact (C7_metadata_extraction_contract.2.1 _ _ _).mpr
      ⟨["Report", "30-Sep-24"], ["", "", "Dept A"], [], "30-Sep-24", rfl,
        by decide, rfl, by decide⟩
  · exact C7_metadata_extraction_contract.2.2.2 assyProcessor "a.csv" [["x"]] []
      "Failed to extract metadata" rfl

theorem tryDateFormats_dedup (s : String) :
    tryDateFormats s date_formats
      = tryDateFormats s ["%d-%b-%y", "%d-%b-%Y", "%m/%d/%Y", "%d/%b/%y"] := by
  unfold date_formats
  rcases h1 : tryDateFormat s "%d-%b-%y" with _ | r1
  · rcases h2 : tryDateFormat s "%d-%b-%Y" with _ | r2 <;>
      rcases h3 : tryDateFormat s "%m/%d/%Y" with _ | r3 <;>
        simp [tryDateFormats, h1, h2, h3]
  · simp [tryDateFormats, h1]

theorem finalize_some_dateOk {parts : TimeParts}
    {t : Nat × Nat × Nat × Nat × Nat × Nat} (h : parts.finalize = some t) :
    dateOk t.1 t.2.1 t.2.2.1 = true := by
  unfold TimeParts.finalize at h
  split at h <;> dsimp only at h <;> split at h <;>
    first
      | (simp only [Option.some.injEq] at h
         subst h
         simp_all)
      | cases h

theorem tryDateFormat_some_shape {s fmt r : String}
    (h : tryDateFormat s fmt = some r) :
    ∃ y m d, dateOk y m d = true ∧ r = strftimeDate y m d := by
  unfold tryDateFormat at h
  rcases hsp : strptime s fmt with _ | t <;> rw [hsp] at h
  · cases h
  · obtain ⟨y, m, d, hh, mi, sec⟩ := t
    simp only [Option.map, Option.some.injEq] at h
    unfold strptime at hsp
    rcases hrf : runFormat fmt.toList s.toList {} with _ | parts <;> rw [hrf] at hsp
    · cases hsp
    · simp only [Option.some_bind] at hsp
      have := finalize_some_dateOk hsp
      exact ⟨y, m, d, this, h.symm⟩

theorem tryDateFormats_some_shape {s : String} {fmts : List String} {r : String}
    (h : tryDateFormats s fmts = some r) :
    ∃ y m d, dateOk y m d = true ∧ r = strftimeDate y m d := by
  induction fmts with
  | nil => cases h
  | cons fmt fmts ih =>
    unfold tryDateFormats at h
    rcases hf : tryDateFormat s fmt with _ | r' <;> rw [hf] at h
    · exact ih h
    · cases h; exact tryDateFormat_some_shape hf

/-- The **C4.** `parse_date` is total (it returns `Option`, an `Except.error` is
impossible by type): it returns the absence signal on `None`/non-string input
and on empty or whitespace-only strings, and otherwise returns the result of
the first matching pattern among `DD-Mon-YY`, `DD-Mon-YYYY`, `MM/DD/YYYY`,
`DD/Mon/YY`, tried in that order (the source's five-entry format list, whose
fourth entry duplicates the first, is behaviorally this four-pattern list);
every successful result is a calendar date reformatted as `YYYY-MM-DD`. -/
theorem C4_parse_date_contract :
    parse_date none = none ∧
    (∀ s, pyStrip s = "" → parse_date (some s) = none) ∧
    (∀ s, pyStrip s ≠ "" →
        parse_date (some s)
          = tryDateFormats (pyStrip s) ["%d-%b-%y", "%d-%b-%Y", "%m/%d/%Y", "%d/%b/%y"]) ∧
    (∀ s r, parse_date (some s) = some r →
        ∃ y m d, dateOk y m d = true ∧ r = strftimeDate y m d) := by
  refine ⟨rfl, ?_, ?_, ?_⟩
  · intro s hs
    unfold parse_date
    dsimp only
    by_cases h0 : s = ""
    · rw [if_pos h0]
    · rw [if_neg h0, if_pos hs]
  · intro s hs
    unfold parse_date
    dsimp only
    have h0 : s ≠ "" := by
      intro h0; apply hs; rw [h0]; rfl
    rw [if_neg h0, if_neg hs]
    exact tryDateFormats_dedup (pyStrip s)
  · intro s r h
    unfold parse_date at h
    dsimp only at h
    split at h
    · cases h
    · split at h
      · cases h
      · exact tryDateFormats_some_shape h

/-- Witness for C4 at concrete inputs: whitespace-only input gives the
absence signal; `"30-Sep-24"` goes through the deduplicated pattern list and
parses to `"2024-09-30"`, a well-formed `YYYY-MM-DD` rendering. -/
theorem C4_parse_date_contract_witness :
    parse_date (some "   ") = none ∧
    parse_date (some "30-Sep-24")
      = tryDateFormats (pyStrip "30-Sep-24") ["%d-%b-%y", "%d-%b-%Y", "%m/%d/%Y", "%d/%b/%y"] ∧
    (∃ y m d, dateOk y m d = true ∧ "2024-09-30" = strftimeDate y m d) := by
  refine ⟨C4_parse_date_contract.2.1 "   " (by decide),
    C4_parse_date_contract.2.2.1 "30-Sep-24" (by decide),
    C4_parse_date_contract.2.2.2 "30-Sep-24" "2024-09-30" (by decide)⟩

/-- The **C5.** `_convert_to_float` returns the absence signal on `None`/non-string,
empty, or whitespace-only input; returns the direct `float(...)` parse of the
trimmed string when that succeeds; when the direct parse fails and the
trimmed string is wrapped in parentheses, returns the negated parse of the
interior (absence if the interior does not parse either); and returns the
absence signal on any other failure.  It never raises: every `float(...)`
`ValueError` is caught. -/
theorem C5_convert_to_float_contract :
    convert_to_float none = none ∧
    (∀ s, pyStrip s = "" → convert_to_float (some s) = none) ∧
    (∀ s f, pyFloat (pyStrip s) = some f → convert_to_float (some s) = some f) ∧
    (∀ s, pyFloat (pyStrip s) = none →
        (pyStrip s).toList.head? = some '(' → (pyStrip s).toList.getLast? = some ')' →
        convert_to_float (some s)
          = (pyFloat (String.mk (((pyStrip s).toList.drop 1).dropLast))).map PyFloat.neg) ∧
    (∀ s, pyFloat (pyStrip s) = none →
        ¬((pyStrip s).toList.head? = some '(' ∧ (pyStrip s).toList.getLast? = some ')') →
        convert_to_float (some s) = none) := by
  have hempty : ∀ s : String, s = "" → pyStrip s = "" := by
    intro s h; rw [h]; rfl
  refine ⟨rfl, ?_, ?_, ?_, ?_⟩
  · intro s hs
    unfold convert_to_float
    dsimp only
    by_cases h0 : s = ""
    · rw [if_pos h0]
    · rw [if_neg h0, if_pos hs]
  · intro s f hf
    have h0 : s ≠ "" := by
      intro h0
      rw [hempty s h0] at hf
      cases hf
    have hs : pyStrip s ≠ "" := by
      intro hs
      rw [hs] at hf
      cases hf
    unfold convert_to_float
    dsimp only
    rw [if_neg h0, if_neg hs, hf]
  · intro s hf hhead hlast
    have h0 : s ≠ "" := by
      intro h0
      rw [hempty s h0] at hhead
      cases hhead
    have hs : pyStrip s ≠ "" := by
      intro hs
      rw [hs] at hhead
      cases hhead
    unfold convert_to_float
    dsimp only
    rw [if_neg h0, if_neg hs, hf, if_pos ⟨hhead, hlast⟩]
    rcases hi : pyFloat (String.mk (((pyStrip s).toList.drop 1).dropLast)) with _ | f <;>
      simp [hi]
  · intro s hf hpar
    unfold convert_to_float
    dsimp only
    by_cases h0 : s = ""
    · rw [if_pos h0]
    · rw [if_neg h0]
      by_cases hs : pyStrip s = ""
      · rw [if_pos hs]
      · rw [if_neg hs, hf, if_neg hpar]

/-- Witness for C5 at concrete inputs: `"123"` parses directly; `"(123)"`
fails the direct parse, is parenthesized, and maps to the negated interior;
`"abc"` fails every branch and yields the absence signal; `"   "` is
whitespace-only. -/
theorem C5_convert_to_float_contract_witness :
    convert_to_float (some "   ") = none ∧
    convert_to_float (some "123") = some (PyFloat.finite ⟨123, 0⟩) ∧
    convert_to_float (some "(123)")
      = (pyFloat (String.mk ((((pyStrip "(123)")).toList.drop 1).dropLast))).map PyFloat.neg ∧
    convert_to_float (some "abc") = none := by
  refine ⟨C5_convert_to_float_contract.2.1 "   " (by decide), ?_, ?_, ?_⟩
  · have := C5_convert_to_float_contract.2.2.1 "123" (PyFloat.finite ⟨123, 0⟩) (by decide)
    exact this
  · exact C5_convert_to_float_contract.2.2.2.1 "(123)" (by decide) (by decide) (by decide)
  · exact C5_convert_to_float_contract.2.2.2.2 "abc" (by decide) (by decide)

/-- The **C2.** The claim says `_insert_data` writes each model field into its
like-named column (so the `upload_date` column holds the ingestion-time
timestamp, `file_name` the file's name, `processing_status` the outcome tag).
The INSERT in fact binds `model_dump()` values positionally against a column
list whose last three entries are permuted: the first 17 columns line up, but
the `upload_date` column receives the model's `file_name` value, `file_name`
receives `processing_status`, and `processing_status` receives `upload_date`.
This theorem exhibits the misalignment. -/
theorem C2_insert_binds_columns_misaligned :
    insertSqlColumns.length = 20 ∧ modelDumpFields.length = 20 ∧
    insertSqlColumns.take 17 = modelDumpFields.take 17 ∧
    (insertSqlColumns.zip modelDumpFields).filter (fun p => p.1 != p.2)
      = [("upload_date", "file_name"), ("file_name", "processing_status"),
         ("processing_status", "upload_date")] ∧
    insertSqlColumns[17]? = some "upload_date" ∧ modelDumpFields[17]? = some "file_name" := by
  refine ⟨rfl, rfl, rfl, ?_, rfl, rfl⟩
  decide

/-- The **C8.** `FileType.SEWDC.db_value = "DC-Sew"` and every other file type
stores its display value unchanged — but no persisted record can actually
carry `file_type = "DC-Sew"`: the pydantic `file_type: FileType` field only
coerces the five member values (`"DC-Sew"` is not among them), so a
`DispatchDataCreate(file_type=FileType.SEWDC.db_value, ...)` call — the
construction pattern every processor uses — raises a validation error, and
every successfully constructed record has a `file_type` other than
`"DC-Sew"`. -/
theorem C8_sewdc_db_value_unrepresentable :
    FileType.SEWDC.db_value = "DC-Sew" ∧
    (∀ ft : FileType, ft ≠ FileType.SEWDC → ft.db_value = ft.value) ∧
    ¬ "DC-Sew" ∈ fileTypeValues ∧
    (∀ (wc jn pn cd pd rsd red dep fn : String) (cm ecd ao : Option String)
        (jq bq mp ph : Option PyFloat) (rcdt : Option String),
        ∃ e, mkDispatchDataCreate FileType.SEWDC.db_value wc jn pn cm jq bq cd pd ecd ao
          mp ph rsd red dep rcdt fn = Except.error e) ∧
    (∀ (ft wc jn pn cd pd rsd red dep fn : String) (cm ecd ao : Option String)
        (jq bq mp ph : Option PyFloat) (rcdt : Option String) (d : DispatchData),
        mkDispatchDataCreate ft wc jn pn cm jq bq cd pd ecd ao mp ph rsd red dep rcdt fn
          = Except.ok d →
        d.file_type ≠ "DC-Sew") := by
  refine ⟨rfl, ?_, by decide, ?_, ?_⟩
  · intro ft hft
    unfold FileType.db_value
    rw [if_neg hft]
  · intro wc jn pn cd pd rsd red dep fn cm ecd ao jq bq mp ph rcdt
    refine ⟨"value is not a valid FileType", ?_⟩
    unfold mkDispatchDataCreate
    rw [if_pos (by decide)]
  · intro ft wc jn pn cd pd rsd red dep fn cm ecd ao jq bq mp ph rcdt d h
    obtain ⟨hmem, hft, -⟩ := mk_ok_spec h
    intro hdc
    rw [hdc] at hft
    rw [← hft] at hmem
    exact absurd hmem (by decide)

/-- An Assy-shaped record as `mkDispatchDataCreate` constructs it, for the C8
witness. -/
def c8AssyRecord : DispatchData :=
  { file_type := "Assy", work_cell := "WC1", job_number := "J1",
    part_number := "P1", comments := none, job_qty := PyFloat.finite ⟨5, 0⟩,
    bal_qty := PyFloat.finite ⟨3, 0⟩, code := "C1", prod_date := "2024-09-30",
    est_compl_date := none, and_on := some "", m_pc := none, prod_hr := none,
    report_start_date := "2024-09-30", report_end_date := "2024-09-30",
    report_department := "Dept A",
    report_creation_datetime := "2024-09-27 16:12:15", file_name := "a.csv",
    processing_status := "success" }

/-- Witness for C8: `FileType.ASSY` keeps its display value; a concrete
record construction with `file_type = FileType.SEWDC.db_value` raises a
validation error; a concrete successful construction yields a record whose
`file_type` is not `"DC-Sew"`. -/
theorem C8_sewdc_db_value_unrepresentable_witness :
    FileType.ASSY.db_value = FileType.ASSY.value ∧
    (∃ e, mkDispatchDataCreate FileType.SEWDC.db_value "WC1" "J1" "P1" none
        (some (PyFloat.finite ⟨5, 0⟩)) (some (PyFloat.finite ⟨3, 0⟩)) "C1"
        "2024-09-30" none (some "") none none "2024-09-30" "2024-09-30" "Dept A"
        (some "2024-09-27 16:12:15") "a.csv" = Except.error e) ∧
    c8AssyRecord.file_type ≠ "DC-Sew" := by
  refine ⟨C8_sewdc_db_value_unrepresentable.2.1 FileType.ASSY (by decide),
    C8_sewdc_db_value_unrepresentable.2.2.2.1 "WC1" "J1" "P1" "C1" "2024-09-30"
      "2024-09-30" "2024-09-30" "Dept A" "a.csv" none none (some "")
      (some (PyFloat.finite ⟨5, 0⟩)) (some (PyFloat.finite ⟨3, 0⟩)) none none
      (some "2024-09-27 16:12:15"), ?_⟩
  exact C8_sewdc_db_value_unrepresentable.2.2.2.2 "Assy" "WC1" "J1" "P1" "C1"
    "2024-09-30" "2024-09-30" "2024-09-30" "Dept A" "a.csv" none none (some "")
    (some (PyFloat.finite ⟨5, 0⟩)) (some (PyFloat.finite ⟨3, 0⟩)) none none
    (some "2024-09-27 16:12:15") c8AssyRecord rfl

/-- The **C9.** Counter partition invariant: whenever `process_file` completes
without a fatal error, `total_rows` equals the sum of the four outcome
counters, for any processor: every data row of the second pass increments
`total_rows` and then exactly one of `successful_rows`, `duplicate_rows`,
`error_rows`, `skipped_rows`, and all counters start at 0. -/
theorem C9_counter_partition (p : Processor) (fn : String)
    (file : List (List String)) (db : List DispatchData)
    (s : FileProcessingSummary) (db' : List DispatchData)
    (h : process_file p fn file db = Except.ok (s, db')) :
    s.total_rows = s.successful_rows + s.duplicate_rows + s.error_rows + s.skipped_rows := by
  unfold process_file at h
  rcases hm : p.extractMetadata file with e | ⟨rsd, dept⟩ <;> rw [hm] at h
  · cases h
  · dsimp only at h
    rw [Except.ok.injEq] at h
    obtain ⟨h1, h2⟩ :=
      foldl_process_row_counts p fn rsd ((first_pass_max p (file.drop 2)).getD rsd) dept
        (file.drop 2) ({ file_name := fn, file_type := p.file_type }, db)
    rw [h] at h1 h2
    simp only at h1 h2
    omega

/-- Witness for C9 at a concrete run: an Assy file with one valid row, one
junk short row and one negative-quantity row gives
`total = 3 = 1 + 0 + 1 + 1`. -/
theorem C9_counter_partition_witness :
    ∃ s db', process_file assyProcessor "a.csv" c9File [] = Except.ok (s, db') ∧
      s.total_rows = s.successful_rows + s.duplicate_rows + s.error_rows + s.skipped_rows :=
  ⟨_, _, rfl, C9_counter_partition assyProcessor "a.csv" c9File [] _ _ rfl⟩

/-- The **C10.** A data row shorter than the start of its layout's blank-check
column range (fewer than 21 cells for Assy, 18 for Fabcut, 20 for LP) makes
the blank-check slice empty, so the `all(...)` conjunction is vacuously true
and the row is classified blank — counted in `skipped_rows`, never in
`error_rows` — regardless of the contents of the cells it does have. -/
theorem C10_short_rows_always_skipped :
    (∀ fn rsd red dept (rcd : Option String) (row : List String), row.length < 21 →
        assyMapRow fn rsd red dept rcd row = Except.ok none) ∧
    (∀ fn rsd red dept (rcd : Option String) (row : List String), row.length < 18 →
        fabcutMapRow fn rsd red dept rcd row = Except.ok none) ∧
    (∀ fn rsd red dept (rcd : Option String) (row : List String), row.length < 20 →
        lpMapRow fn rsd red dept rcd row = Except.ok none) ∧
    (∀ (p : Processor) fn rsd red dept (st : FileProcessingSummary × List DispatchData)
        (row : List String),
        p.mapRowToData fn rsd red dept (p.getReportCreationDatetime row) row
          = Except.ok none →
        process_row p fn rsd red dept st row
          = ({ st.1 with
                total_rows := st.1.total_rows + 1
                skipped_rows := st.1.skipped_rows + 1 }, st.2)) := by
  have hslice : ∀ (row : List String) a b, row.length ≤ a → pySlice row a b = [] := by
    intro row a b hle
    unfold pySlice
    rw [List.drop_eq_nil_of_le hle]
    simp
  refine ⟨?_, ?_, ?_, ?_⟩
  · intro fn rsd red dept rcd row hlen
    unfold assyMapRow
    rw [if_pos (by rw [hslice row 20 30 (by omega)]; rfl)]
  · intro fn rsd red dept rcd row hlen
    unfold fabcutMapRow
    rw [if_pos (by rw [hslice row 17 25 (by omega)]; rfl)]
  · intro fn rsd red dept rcd row hlen
    unfold lpMapRow
    rw [if_pos (by rw [hslice row 19 28 (by omega)]; rfl)]
  · intro p fn rsd red dept st row h
    unfold process_row
    rw [h]

/-- Witness for C10: the two-cell row `["JUNK", "stuff"]` (non-blank content)
is classified blank by all three adapters and counted as skipped. -/
theorem C10_short_rows_always_skipped_witness :
    assyMapRow "a.csv" "2024-09-30" "2024-09-30" "D" none ["JUNK", "stuff"]
      = Except.ok none ∧
    fabcutMapRow "a.csv" "2024-09-30" "2024-09-30" "D" none ["JUNK", "stuff"]
      = Except.ok none ∧
    lpMapRow "a.csv" "2024-09-30" "2024-09-30" "D" none ["JUNK", "stuff"]
      = Except.ok none ∧
    process_row assyProcessor "a.csv" "2024-09-30" "2024-09-30" "D"
        ({ file_name := "a.csv", file_type := FileType.ASSY }, []) ["JUNK", "stuff"]
      = ({ file_name := "a.csv", file_type := FileType.ASSY, total_rows := 1,
           skipped_rows := 1 }, []) := by
  refine ⟨C10_short_rows_always_skipped.1 _ _ _ _ _ _ (by decide),
    C10_short_rows_always_skipped.2.1 _ _ _ _ _ _ (by decide),
    C10_short_rows_always_skipped.2.2.1 _ _ _ _ _ _ (by decide), ?_⟩
  have h : assyProcessor.mapRowToData "a.csv" "2024-09-30" "2024-09-30" "D"
      (assyProcessor.getReportCreationDatetime ["JUNK", "stuff"]) ["JUNK", "stuff"]
      = Except.ok none :=
    C10_short_rows_always_skipped.1 "a.csv" "2024-09-30" "2024-09-30" "D"
      (assyProcessor.getReportCreationDatetime ["JUNK", "stuff"]) ["JUNK", "stuff"] (by decide)
  exact C10_short_rows_always_skipped.2.2.2 assyProcessor "a.csv" "2024-09-30" "2024-09-30" "D"
    ({ file_name := "a.csv", file_type := FileType.ASSY }, []) ["JUNK", "stuff"] h

/-- The **C3.** For every successfully processed file: every record persisted
from the file carries `report_end_date` equal to
`(first_pass_max ...).getD report_start_date`, i.e. the maximum
successfully-parsed `prod_date` over all data rows, or `report_start_date`
when no data row yields a parseable date (`first_pass_max` is characterized
below as that maximum); and the first pass touches no counter — every
counter of the summary comes from the second pass, in which each data row
increments `total_rows` exactly once, so `total_rows = (file.drop 2).length`
regardless of how many first-pass date parses fail. -/
theorem C3_report_end_date_is_max_prod_date (p : Processor)
    (hp : p = assyProcessor ∨ p = fabcutProcessor ∨ p = lpProcessor)
    (fn : String) (file : List (List String)) (db : List DispatchData)
    (s : FileProcessingSummary) (db' : List DispatchData) (rsd dept : String)
    (hmeta : p.extractMetadata file = Except.ok (rsd, dept))
    (h : process_file p fn file db = Except.ok (s, db')) :
    (∃ extra, db' = db ++ extra ∧ ∀ d ∈ extra,
        d.report_end_date = (first_pass_max p (file.drop 2)).getD rsd) ∧
    (∀ m, first_pass_max p (file.drop 2) = some m →
        (∃ row ∈ file.drop 2, p.getProdDate row = some m) ∧
        ∀ row ∈ file.drop 2, ∀ pd, p.getProdDate row = some pd → pd ≤ m) ∧
    (first_pass_max p (file.drop 2) = none →
        ∀ row ∈ file.drop 2, p.getProdDate row = none) ∧
    s.total_rows = (file.drop 2).length := by
  unfold process_file at h
  rw [hmeta] at h
  dsimp only at h
  rw [Except.ok.injEq, Prod.ext_iff] at h
  obtain ⟨hs, hdb2⟩ := h
  dsimp only at hs hdb2
  have hend : ∀ (rcd : Option String) row d,
      p.mapRowToData fn rsd ((first_pass_max p (file.drop 2)).getD rsd) dept rcd row
        = Except.ok (some d) →
      d.report_end_date = (first_pass_max p (file.drop 2)).getD rsd := by
    intro rcd row d hmr
    rcases hp with rfl | rfl | rfl
    · exact (assyMapRow_ok_some hmr).2.2.1
    · exact (fabcutMapRow_ok_some hmr).2.2
    · exact (lpMapRow_ok_some hmr).2.2
  refine ⟨?_, ?_, ?_, ?_⟩
  · obtain ⟨extra, hdb, hext⟩ :=
      foldl_process_row_db p fn rsd ((first_pass_max p (file.drop 2)).getD rsd) dept
        (fun d => d.report_end_date = (first_pass_max p (file.drop 2)).getD rsd)
        hend (file.drop 2) ({ file_name := fn, file_type := p.file_type }, db)
    rw [hdb2] at hdb
    exact ⟨extra, hdb, hext⟩
  · intro m hm
    exact first_pass_max_some hm
  · intro hm
    exact first_pass_max_none hm
  · obtain ⟨h1, -⟩ :=
      foldl_process_row_counts p fn rsd ((first_pass_max p (file.drop 2)).getD rsd) dept
        (file.drop 2) ({ file_name := fn, file_type := p.file_type }, db)
    rw [hs] at h1
    simpa using h1

/-- Witness for C3 at a concrete run: the three-data-row Assy example file
has maximal parseable production date `2024-09-30`, and every record inserted
by a run from the empty store carries it as `report_end_date`. -/
theorem C3_report_end_date_is_max_prod_date_witness :
    ∃ s db', process_file assyProcessor "a.csv" c9File [] = Except.ok (s, db') ∧
      (∃ extra, db' = [] ++ extra ∧ ∀ d ∈ extra,
          d.report_end_date = (first_pass_max assyProcessor (c9File.drop 2)).getD "2024-09-30") ∧
      s.total_rows = (c9File.drop 2).length := by
  refine ⟨_, _, rfl, ?_⟩
  have h := C3_report_end_date_is_max_prod_date assyProcessor (Or.inl rfl) "a.csv" c9File []
      _ _ "2024-09-30" "Dept A" rfl rfl
  exact ⟨h.1, h.2.2.2⟩

/-- The **C6.** Record construction rejects any negative numeric field: if any of
`job_qty`, `bal_qty`, `m_pc`, `prod_hr` is a negative value, the pydantic
validator fails and `mkDispatchDataCreate` returns an error, whatever the
other fields are.  At pipeline level (shown for the Assy adapter): a
non-blank data row with a parseable `prod_date` whose `job_qty` (or
`bal_qty`, `m_pc`, `prod_hr`) cell normalizes to a negative value makes
`_map_row_to_data` raise; `process_row` counts that row in `error_rows`
only, does not persist it, and the fold continues with the next row. -/
theorem C6_negative_numeric_is_error_row :
    (∀ (ft wc jn pn cd pd rsd red dep fn : String) (cm ecd ao : Option String)
        (jq bq mp ph : Option PyFloat) (rcdt : Option String) (q : PyFloat),
        (jq = some q ∨ bq = some q ∨ mp = some q ∨ ph = some q) → q.ltZero = true →
        ∃ e, mkDispatchDataCreate ft wc jn pn cm jq bq cd pd ecd ao mp ph rsd red dep rcdt fn
          = Except.error e) ∧
    (∀ (fn rsd red dept : String) (rcd : Option String) (row : List String)
        (st : FileProcessingSummary × List DispatchData) (q : PyFloat),
        ((pySlice row 20 30).all (fun cell => pyStrip cell == "")) = false →
        (∀ c25, row[25]? = some c25 → parse_date (some c25) ≠ none) →
        ((∃ c, row[22]? = some c ∧ convert_to_float (some c) = some q) ∨
         (∃ c, row[23]? = some c ∧ convert_to_float (some c) = some q) ∨
         (∃ c, row[28]? = some c ∧ convert_to_float (some c) = some q) ∨
         (∃ c, row[29]? = some c ∧ convert_to_float (some c) = some q)) →
        q.ltZero = true →
        (∃ e, assyMapRow fn rsd red dept rcd row = Except.error e) ∧
        process_row assyProcessor fn rsd red dept st row
          = ({ st.1 with
                total_rows := st.1.total_rows + 1
                error_rows := st.1.error_rows + 1 }, st.2)) := by
  constructor
  · intro ft wc jn pn cd pd rsd red dep fn cm ecd ao jq bq mp ph rcdt q hmem hneg
    unfold mkDispatchDataCreate
    split
    · exact ⟨_, rfl⟩
    · rcases hjq : jq with _ | jqv <;> rcases hbq : bq with _ | bqv <;>
        rcases hrcdt : rcdt with _ | rcdv <;> dsimp only
      case some.some.some =>
        rw [if_pos ?_]
        · exact ⟨_, rfl⟩
        · rcases hmem with rfl | rfl | rfl | rfl
          · rw [Option.some.injEq] at hjq
            simp [← hjq, hneg]
          · rw [Option.some.injEq] at hbq
            simp [← hbq, hneg]
          · simp [optLtZero, hneg]
          · simp [optLtZero, hneg]
      all_goals exact ⟨_, rfl⟩
  · intro fn rsd red dept rcd row st q hblank hpd hmem hneg
    have herr : ∀ rcd', ∃ e, assyMapRow fn rsd red dept rcd' row = Except.error e := by
      intro rcd'
      rcases hres : assyMapRow fn rsd red dept rcd' row with e | od
      · exact ⟨e, rfl⟩
      · exfalso
        rcases od with _ | d
        · rcases assyMapRow_ok_none hres with hb | ⟨c25, hc25, hpdn⟩
          · rw [hblank] at hb
            cases hb
          · exact hpd c25 hc25 hpdn
        · obtain ⟨-, -, -, ⟨c22, hc22, hcv22⟩, hjqn, ⟨c23, hc23, hcv23⟩, hbqn,
            ⟨c28, hc28, hcv28⟩, hmpn, ⟨c29, hc29, hcv29⟩, hphn⟩ := assyMapRow_ok_some hres
          rcases hmem with ⟨c, hc, hcv⟩ | ⟨c, hc, hcv⟩ | ⟨c, hc, hcv⟩ | ⟨c, hc, hcv⟩
          · rw [hc22] at hc
            rw [Option.some.injEq] at hc
            subst hc
            rw [hcv22] at hcv
            rw [Option.some.injEq] at hcv
            rw [hcv] at hjqn
            rw [hjqn] at hneg
            cases hneg
          · rw [hc23] at hc
            rw [Option.some.injEq] at hc
            subst hc
            rw [hcv23] at hcv
            rw [Option.some.injEq] at hcv
            rw [hcv] at hbqn
            rw [hbqn] at hneg
            cases hneg
          · rw [hc28] at hc
            rw [Option.some.injEq] at hc
            subst hc
            rw [hcv] at hcv28
            rw [hcv28] at hmpn
            simp only [optLtZero] at hmpn
            rw [hmpn] at hneg
            cases hneg
          · rw [hc29] at hc
            rw [Option.some.injEq] at hc
            subst hc
            rw [hcv] at hcv29
            rw [hcv29] at hphn
            simp only [optLtZero] at hphn
            rw [hphn] at hneg
            cases hneg
    refine ⟨herr rcd, ?_⟩
    obtain ⟨e, he⟩ := herr (assyProcessor.getReportCreationDatetime row)
    unfold process_row
    rw [show assyProcessor.mapRowToData fn rsd red dept
        (assyProcessor.getReportCreationDatetime row) row
        = Except.error e from he]

/-- Witness for C6 at concrete inputs: the accounting-notation row
`assyNegRow` (with `"(5)"` in the `job_qty` column) is rejected and counted
as an error row. -/
theorem C6_negative_numeric_is_error_row_witness :
    (∃ e, mkDispatchDataCreate "Assy" "WC1" "J1" "P1" none
        (some (PyFloat.finite ⟨-5, 0⟩)) (some (PyFloat.finite ⟨3, 0⟩)) "C1"
        "2024-09-30" none (some "") none none "2024-09-30" "2024-09-30" "Dept A"
        (some "2024-09-27 16:12:15") "a.csv" = Except.error e) ∧
    (∃ e, assyMapRow "a.csv" "2024-09-30" "2024-09-30" "Dept A"
        (some "2024-09-27 16:12:15") assyNegRow = Except.error e) := by
  constructor
  · exact C6_negative_numeric_is_error_row.1 "Assy" "WC1" "J1" "P1" "C1" "2024-09-30"
      "2024-09-30" "2024-09-30" "Dept A" "a.csv" none none (some "")
      (some (PyFloat.finite ⟨-5, 0⟩)) (some (PyFloat.finite ⟨3, 0⟩)) none none
      (some "2024-09-27 16:12:15") (PyFloat.finite ⟨-5, 0⟩) (Or.inl rfl) (by decide)
  · exact (C6_negative_numeric_is_error_row.2 "a.csv" "2024-09-30" "2024-09-30" "Dept A"
      (some "2024-09-27 16:12:15") assyNegRow
      (⟨{ file_name := "a.csv", file_type := FileType.ASSY }, []⟩) (PyFloat.finite ⟨-5, 0⟩)
      (by decide) (by decide)
      (Or.inl ⟨"(5)", by decide, by decide⟩) (by decide)).1

/-- The **C1.** Re-ingestion of an identical file is *not* idempotent in the
code: `row_exists` compares the duplicate-key columns with SQL `=`, and a
`NULL` operand (Python `None`, e.g. an empty `est_compl_date` cell) makes
the comparison untrue, so a stored row with any `NULL` key field never
matches — not even itself.  Processing `c1File` (one valid data row with
empty `est_compl_date`) twice from the empty store yields, on the second
run, `successful_rows = 1` and `duplicate_rows = 0`, where the claim
requires `0` and `1`; the record inserted by the first run does not even
match itself under the `row_exists` comparison.  A fully populated row
(`assyFullRow`, no `NULL` key field) *is* detected as a duplicate on the
second run, isolating the `NULL` comparison as the cause. -/
theorem C1_reingestion_not_idempotent_with_null_key :
    ∃ s1 db1 s2 db2,
      process_file assyProcessor "dispatch.csv" c1File [] = Except.ok (s1, db1) ∧
      process_file assyProcessor "dispatch.csv" c1File db1 = Except.ok (s2, db2) ∧
      s1.total_rows = 1 ∧ s1.successful_rows = 1 ∧ s1.duplicate_rows = 0 ∧
      s1.error_rows = 0 ∧ s1.skipped_rows = 0 ∧
      s2.successful_rows = 1 ∧ s2.duplicate_rows = 0 ∧
      (∃ d ∈ db1, d.est_compl_date = none ∧ rowMatches d d = false) ∧
      (∃ s1' db1' s2' db2',
        process_file assyProcessor "dispatch.csv" (exampleMeta ++ [assyFullRow]) []
          = Except.ok (s1', db1') ∧
        process_file assyProcessor "dispatch.csv" (exampleMeta ++ [assyFullRow]) db1'
          = Except.ok (s2', db2') ∧
        s1'.successful_rows = 1 ∧ s2'.successful_rows = 0 ∧ s2'.duplicate_rows = 1) := by
  refine ⟨_, _, _, _, rfl, rfl, ?_, ?_, ?_, ?_, ?_, ?_, ?_, ?_,
    ⟨_, _, _, _, rfl, rfl, ?_, ?_, ?_⟩⟩ <;> decide

end Dispatch
